import Mathlib

/-!
Shallow embedding of the proteus-svg conversion engine (Proteus/DEXPI P&ID
XML → SVG scene tree) and proofs about it.

Conventions of the embedding:
* XML attribute values that the code reads with `float(...)` are modelled as
  rational numbers (`AttrVal.num`); attribute values the code compares as
  strings are modelled as `AttrVal.str`.  Python float arithmetic on the
  values involved in the verified claims is exact, so `ℚ` is faithful.
* Fallible Python code (raising ValueError / AssertionError / KeyError /
  TypeError / AttributeError / NotImplementedError) is modelled with
  `Except Err`; the error constructors mirror the exception class only,
  not the message text.
* `lxml` in-place mutation is modelled by returning the updated node.
  The parent back-reference (`node.getparent()`) is modelled by passing the
  parent node explicitly to the handlers that use it.
* Recursions of the source that are not structural in the embedding
  (catalog splicing inserts catalog-derived subtrees into the walked node)
  take an explicit fuel argument; fuel exhaustion is a distinguished error
  that the real code (whose recursion is bounded by the finite document)
  never produces.
-/

/-- Python exception kinds raised by the conversion engine
(message texts are not modelled). `fuelExhausted` is an artifact of the
embedding's fuel-based recursion, never raised by the source. -/
inductive Err where
  | valueError
  | assertionError
  | keyError
  | typeError
  | attributeError
  | notImplementedError
  | fuelExhausted
deriving DecidableEq, Repr

/-- An XML attribute value: either a string or a numeric value
(numeric-looking strings that the code passes to `float(...)` are modelled
directly as `num`). -/
inductive AttrVal where
  | str : String → AttrVal
  | num : ℚ → AttrVal
deriving DecidableEq, Repr

/-- A parsed XML element: tag name, ordered attribute list, ordered children,
optional text content (`lxml` `.text`). -/
inductive XmlNode where
  | mk : String → List (String × AttrVal) → List XmlNode → Option String → XmlNode

namespace XmlNode

def tag : XmlNode → String
  | mk t _ _ _ => t

def attrib : XmlNode → List (String × AttrVal)
  | mk _ a _ _ => a

def children : XmlNode → List XmlNode
  | mk _ _ c _ => c

def text : XmlNode → Option String
  | mk _ _ _ tx => tx

/-- `node.attrib.get(k)`: first attribute with the given name. -/
def getAttr (n : XmlNode) (k : String) : Option AttrVal :=
  (n.attrib.find? (fun p => p.1 == k)).map Prod.snd

/-- Assignment into an attribute dictionary: replace the (unique) entry
with the key in place, else append (Python dict assignment; lxml attribute
keys are unique). -/
def setAttrList (k : String) (v : AttrVal) : List (String × AttrVal) →
    List (String × AttrVal)
  | [] => [(k, v)]
  | p :: rest => if p.1 == k then (k, v) :: rest else p :: setAttrList k v rest

/-- `node.attrib[k] = v`: in-place update preserving attribute order. -/
def setAttr (n : XmlNode) (k : String) (v : AttrVal) : XmlNode :=
  mk n.tag (setAttrList k v n.attrib) n.children n.text

/-- `node.find(tag)`: first direct child with the given tag, if any. -/
def findCh (n : XmlNode) (t : String) : Option XmlNode :=
  n.children.find? (fun c => c.tag == t)

/-- `node.findall(tag)`: all direct children with the given tag, in order. -/
def findallCh (n : XmlNode) (t : String) : List XmlNode :=
  n.children.filter (fun c => c.tag == t)

end XmlNode

/-- All strict descendants of the nodes of a list, in document (preorder)
order; used to model lxml `.//` searches. -/
def descList : List XmlNode → List XmlNode
  | [] => []
  | XmlNode.mk t a cs tx :: rest =>
      XmlNode.mk t a cs tx :: (descList cs ++ descList rest)

/-- All strict descendants of a node in document order. -/
def XmlNode.descendants (n : XmlNode) : List XmlNode :=
  descList n.children

/-- `float(v)` on an attribute value; numeric-looking strings are already
modelled as `num`, so a `str` here is a non-numeric string (ValueError). -/
def pyFloat : AttrVal → Except Err ℚ
  | AttrVal.num q => Except.ok q
  | AttrVal.str _ => Except.error Err.valueError

/-- `float(d.get(k))` where the key may be absent: `float(None)` raises a
TypeError. -/
def pyFloatOpt : Option AttrVal → Except Err ℚ
  | some v => pyFloat v
  | none => Except.error Err.typeError

/-- `d[k]` (`itemgetter`) access: raises KeyError when absent. -/
def pyItem (n : XmlNode) (k : String) : Except Err AttrVal :=
  match n.getAttr k with
  | some v => Except.ok v
  | none => Except.error Err.keyError

/-- `float(d[k])` as done via `itemgetter` + `map(float, ...)`. -/
def pyFloatItem (n : XmlNode) (k : String) : Except Err ℚ := do
  pyFloat (← pyItem n k)

/-- Python truthiness of an optional attribute value
(`if node.attrib.get('Filled')`). -/
def pyTruthy : Option AttrVal → Bool
  | none => false
  | some (AttrVal.str s) => s ≠ ""
  | some (AttrVal.num q) => q ≠ 0

/-- How a value is rendered into a Python f-string (`None` prints as
"None"; a rational stands for itself — numeric values never occur where
this is used by the claims). -/
def pyFStrOpt : Option String → String
  | some s => s
  | none => "None"

/-- Python `str.lower()` (character-wise; the tag and attribute vocabulary
is ASCII). -/
def lowerStr (s : String) : String :=
  String.mk (s.data.map Char.toLower)

/-- Python `str.startswith(p)`. -/
def startsWithStr (s p : String) : Bool :=
  p.data.isPrefixOf s.data

/-- Python `str.endswith(p)`. -/
def endsWithStr (s p : String) : Bool :=
  p.data.isSuffixOf s.data

/-- An ASCII whitespace character as removed by Python `str.strip()`. -/
def isPyWs (c : Char) : Bool :=
  c == ' ' || c == '\t' || c == '\n' || c == '\r' || c == '\x0b' || c == '\x0c'

/-- Python `str.strip()`. -/
def stripStr (s : String) : String :=
  String.mk (((s.data.dropWhile isPyWs).reverse.dropWhile isPyWs).reverse)

/-- `ensure_type(obj, tag)` from proteus_utils: `None` (or any non-element)
fails the element type check with a ValueError, and a tag mismatch is also
a ValueError. -/
def ensure_type (obj : Option XmlNode) (t : String) : Except Err Unit :=
  match obj with
  | none => Except.error Err.valueError
  | some n => if n.tag = t then Except.ok () else Except.error Err.valueError

/-! ## color_utils -/

/-- One uppercase hexadecimal digit. -/
def hexDigit (n : ℕ) : Char :=
  if n < 10 then Char.ofNat (48 + n) else Char.ofNat (55 + n)

/-- Python `'{:02X}'.format(a)` for `0 ≤ a ≤ 255`: two-digit uppercase
hexadecimal (the source only formats values it has range-checked). -/
def toHex2 (a : ℤ) : String :=
  String.mk [hexDigit (a.toNat / 16), hexDigit (a.toNat % 16)]

/-- `rgb_to_hex_string` from color_utils: range-check each channel in
[0, 255] and render `#RRGGBB` in uppercase hex. -/
def rgb_to_hex_string (red green blue : ℤ) : Except Err String := do
  if ¬(0 ≤ red ∧ red ≤ 255) then
    Except.error Err.valueError
  else if ¬(0 ≤ green ∧ green ≤ 255) then
    Except.error Err.valueError
  else if ¬(0 ≤ blue ∧ blue ≤ 255) then
    Except.error Err.valueError
  else
    Except.ok ("#" ++ toHex2 red ++ toHex2 green ++ toHex2 blue)

/-- `compute_rgb` from color_utils: range-check each channel in [0.0, 1.0]
and floor `channel * 255`. -/
def compute_rgb (red green blue : ℚ) : Except Err (ℤ × ℤ × ℤ) := do
  if ¬(0 ≤ red ∧ red ≤ 1) then
    Except.error Err.valueError
  else if ¬(0 ≤ green ∧ green ≤ 1) then
    Except.error Err.valueError
  else if ¬(0 ≤ blue ∧ blue ≤ 1) then
    Except.error Err.valueError
  else
    Except.ok (⌊red * 255⌋, ⌊green * 255⌋, ⌊blue * 255⌋)

/-- `fetch_color_from_presentation` from color_utils: type-check the
presentation node, read R, G, B (KeyError if absent), parse as floats and
convert through `compute_rgb` and `rgb_to_hex_string`. -/
def fetch_color_from_presentation (pr_obj : Option XmlNode) : Except Err String := do
  ensure_type pr_obj "Presentation"
  match pr_obj with
  | none => Except.error Err.valueError
  | some pr => do
    let red ← pyFloatItem pr "R"
    let green ← pyFloatItem pr "G"
    let blue ← pyFloatItem pr "B"
    let (r, g, b) ← compute_rgb red green blue
    rgb_to_hex_string r g b

/-! ## line_utils (proteus_lib variant: string-valued codes and
case-insensitive names, optional fallback) -/

/-- `fetch_line_type_from_presentation` from proteus_lib/line_utils:
read `LineType` (default `fallback`), lower-case it, and map code or name
to the SVG stroke-dasharray value list; unknown codes raise ValueError. -/
def fetch_line_type_from_presentation (pr_obj : Option XmlNode)
    (fallback : String := "Solid") : Except Err (List ℕ) := do
  ensure_type pr_obj "Presentation"
  match pr_obj with
  | none => Except.error Err.valueError
  | some pr => do
    let raw : String :=
      match pr.getAttr "LineType" with
      | some (AttrVal.str s) => s
      | some (AttrVal.num _) => ""
      | none => fallback
    let lt := lowerStr raw
    if lt = "0" ∨ lt = "solid" then Except.ok []
    else if lt = "1" ∨ lt = "dotted" then Except.ok [1]
    else if lt = "2" ∨ lt = "dashed" then Except.ok [3]
    else if lt = "3" ∨ lt = "long dash" then Except.ok [4, 1]
    else if lt = "4" ∨ lt = "long dash + short dash, centerline" then Except.ok [4, 1, 2, 1]
    else if lt = "5" ∨ lt = "short dash" then Except.ok [2, 1]
    else if lt = "6" ∨ lt = "long dash + short dash + short dash" then Except.ok [4, 1, 2, 1, 2, 1]
    else if lt = "7" ∨ lt = "dash + short dash" then Except.ok [3, 1, 2, 1]
    else Except.error Err.valueError

/-! ## SVG scene model (svgwrite surface, reduced to the data the engine sets) -/

/-- A path drawing operation pushed onto an svgwrite path. -/
inductive PathOp where
  | moveTo : ℚ → ℚ → PathOp
  | lineTo : ℚ → ℚ → PathOp
  | closePath : PathOp
deriving DecidableEq, Repr

/-- The payload of one svgwrite element as constructed by the handlers.
`strokeWidth` is the `stroke_width=` keyword; `styleStrokeWidth` models a
`style='stroke-width:w'` string by its numeric value.  A dash list `[]`
means the `stroke-dasharray` attribute is unset (the code only sets it for
truthy, i.e. non-empty, lists).  For `arcPath` the endpoint computation of
`describe_arc` (floating-point trigonometry) is kept symbolic: the element
carries center, radius, the angles and the large-arc flag, plus the
`translate`/`scale` transform the handler applies. -/
inductive SvgKind where
  | lineSeg : ℚ × ℚ → ℚ × ℚ → String → ℚ → List ℕ → SvgKind
  | pathShape : List PathOp → String → String → Option ℚ → Option ℚ → List ℕ → SvgKind
  | circleShape : ℚ × ℚ → ℚ → String → String → ℚ → SvgKind
  | rectShape : ℚ × ℚ → ℚ × ℚ → String → String → ℚ → SvgKind
  | textRun : String → ℚ → ℚ → ℤ → Option AttrVal → String → String → String → ℚ × (ℚ × ℚ) → SvgKind
  | tspanRun : String → ℚ → ℤ → String → String → SvgKind
  | groupBox : List (String × Option String) → SvgKind
  | arcPath : ℚ × ℚ → ℚ → ℚ → ℚ → Bool → String → ℚ → ℚ × ℚ → ℚ × ℚ → SvgKind

/-- An svgwrite element: its payload and the child elements added to it. -/
inductive SvgElem where
  | mk : SvgKind → List SvgElem → SvgElem

namespace SvgElem

def kind : SvgElem → SvgKind
  | mk k _ => k

def elems : SvgElem → List SvgElem
  | mk _ es => es

/-- `target.add(child)` for several children in order. -/
def addAll : SvgElem → List SvgElem → SvgElem
  | mk k es, more => mk k (es ++ more)

end SvgElem

/-! ## model_context -/

/-- The conversion context (model_context.Context).  `units` is
`ctx.units.value` (mm = 1, Metre = 1000); the svgwrite drawing handle is
not part of the data the engine reads. -/
structure Context where
  x_min : ℚ
  x_max : ℚ
  y_min : ℚ
  y_max : ℚ
  origin : Option String := none
  debug : Bool := false
  units : ℚ := 1
  shape_catalog : Option XmlNode := none

/-- `Context.get_from_shape_catalog`: search the catalog's descendants in
document order for the first element with the requested tag whose
`ComponentName` attribute equals the requested name (lxml
`.//tag[@ComponentName="name"]`); the source deep-copies the result, which
in this value semantics is the identity. -/
def Context.get_from_shape_catalog (ctx : Context) (node_type : String)
    (component_name : Option String) : Option XmlNode :=
  match ctx.shape_catalog with
  | none => none
  | some cat =>
      cat.descendants.find? (fun d =>
        d.tag == node_type &&
        d.getAttr "ComponentName" == some (AttrVal.str (pyFStrOpt component_name)))

/-- One generic-attribute extraction rule: the `Set` name and the attribute
names to copy. -/
structure OriginAttrSpec where
  set : String
  values : List String

/-- `Context.attributes_to_add_from_origin`: only the `comos` originating
system is mapped; a missing origin raises AttributeError on `.lower()`,
and any other origin makes the method return `None`, over which the caller
iterates (TypeError). -/
def Context.attributes_to_add_from_origin (ctx : Context) :
    Except Err (List OriginAttrSpec) :=
  match ctx.origin with
  | none => Except.error Err.attributeError
  | some o =>
      if lowerStr o = "comos" then
        Except.ok [⟨"ComosProperties", ["Label", "FullLabel"]⟩]
      else
        Except.error Err.typeError

/-! ## proteus_utils -/

/-- The fixed container set (`COMPLEX_NODES`): tags whose children the
dispatch engine walks recursively. -/
def COMPLEX_NODES : List String :=
  ["PlantModel", "Drawing", "Label", "Nozzle", "PipingNetworkSystem", "PipeFlowArrow",
   "PipingNetworkSegment", "PipingComponent", "Equipment", "SignalLine", "ActuatingSystem",
   "ActuatingSystemComponent", "InformationFlow",
   "ProcessInstrumentationFunction", "PipeConnectorSymbol"]

/-- `should_process_child`: membership in the fixed container set. -/
def should_process_child (node_type : String) : Bool :=
  node_type ∈ COMPLEX_NODES

/-- `get_gen_attr_val`: XPath
`.//GenericAttributes[@Set=set]/GenericAttribute[@Name=attr]`, then the
`Value` attribute stripped; a match without a string `Value` raises
AttributeError (`None.strip()`), and no match yields `None`. -/
def get_gen_attr_val (node : XmlNode) (s attr : String) :
    Except Err (Option String) :=
  let sets := node.descendants.filter (fun d =>
    d.tag == "GenericAttributes" && d.getAttr "Set" == some (AttrVal.str s))
  let hits := sets.flatMap (fun g => g.children.filter (fun c =>
    c.tag == "GenericAttribute" && c.getAttr "Name" == some (AttrVal.str attr)))
  match hits.head? with
  | none => Except.ok none
  | some g =>
      match g.getAttr "Value" with
      | some (AttrVal.str v) => Except.ok (some (stripStr v))
      | _ => Except.error Err.attributeError

/-- The coordinate rewrite of `set_scale_angle_pos` applied to one element
carrying `X`/`Y` attributes: scale, then rotate by the (cos, sin)
reference, then translate; the results are written back in place. -/
def applyTransformation2d (pos_t ref_t : ℚ × ℚ) (scale_t : ℚ × ℚ × ℚ)
    (obj : XmlNode) : Except Err XmlNode := do
  let px ← pyFloatItem obj "X"
  let py ← pyFloatItem obj "Y"
  let sx := scale_t.1 * px
  let sy := scale_t.2.1 * py
  let rx := ref_t.1 * sx - ref_t.2 * sy
  let ry := ref_t.2 * sx + ref_t.1 * sy
  Except.ok ((obj.setAttr "X" (AttrVal.num (pos_t.1 + rx))).setAttr "Y"
    (AttrVal.num (pos_t.2 + ry)))

/-- Replace the first child satisfying the predicate by the result of the
update (models mutating the node returned by `find`). -/
def updateFirst (p : XmlNode → Bool) (f : XmlNode → Except Err XmlNode) :
    List XmlNode → Except Err (List XmlNode)
  | [] => Except.ok []
  | c :: rest =>
      if p c then do
        let c' ← f c
        Except.ok (c' :: rest)
      else do
        let rest' ← updateFirst p f rest
        Except.ok (c :: rest')

/-- Sequential effectful map over a child list (explicit recursion in
place of `List.mapM`, for direct unfolding in proofs). -/
def mapExcept (f : XmlNode → Except Err XmlNode) : List XmlNode →
    Except Err (List XmlNode)
  | [] => Except.ok []
  | c :: rest => do
    let c' ← f c
    let rest' ← mapExcept f rest
    Except.ok (c' :: rest')

/-- The rewrite of a `Position` element's `Location` grandchild performed
by `set_scale_angle_pos` (an absent `Location` is the AttributeError of
`None` flowing into the coordinate rewrite). -/
def positionLocUpdate (pos_t ref_t : ℚ × ℚ) (scale_t : ℚ × ℚ × ℚ)
    (p : XmlNode) : Except Err XmlNode :=
  match p.findCh "Location" with
  | none => Except.error Err.attributeError
  | some _ => do
      let lcs ← updateFirst (fun c => c.tag == "Location")
        (applyTransformation2d pos_t ref_t scale_t) p.children
      Except.ok (XmlNode.mk p.tag p.attrib lcs p.text)

/-- The per-child rewrite of `Coordinate` elements performed by
`set_scale_angle_pos`. -/
def coordinateUpdate (pos_t ref_t : ℚ × ℚ) (scale_t : ℚ × ℚ × ℚ)
    (c : XmlNode) : Except Err XmlNode :=
  if c.tag == "Coordinate" then applyTransformation2d pos_t ref_t scale_t c
  else Except.ok c

/-- The `if item.find('Position') is not None` step of
`set_scale_angle_pos`: rewrite the first `Position` child's `Location`
when a `Position` child exists. -/
def positionStep (pos_t ref_t : ℚ × ℚ) (scale_t : ℚ × ℚ × ℚ)
    (item : XmlNode) : Except Err (List XmlNode) :=
  match item.findCh "Position" with
  | none => Except.ok item.children
  | some _ =>
      updateFirst (fun c => c.tag == "Position")
        (positionLocUpdate pos_t ref_t scale_t) item.children

/-- The `Radius` step of `set_scale_angle_pos`: multiply a present
`Radius` attribute by the x-scale. -/
def radiusStep (scale_t : ℚ × ℚ × ℚ) (item1 : XmlNode) : Except Err XmlNode :=
  match item1.getAttr "Radius" with
  | none => Except.ok item1
  | some v =>
      (pyFloat v).bind fun r =>
        Except.ok (item1.setAttr "Radius" (AttrVal.num (r * scale_t.1)))

/-- `set_scale_angle_pos` from proteus_utils: validate the rotation
reference against the unit circle (tolerance 1e-4, else AssertionError),
rewrite the node's `Position/Location` point, rewrite every `Coordinate`
child, multiply a `Radius` attribute by the x-scale, then recurse into all
children (`for child in item`).  One fuel unit is spent per tree level;
the source recursion is bounded by the finite subtree. -/
def set_scale_angle_pos : ℕ → XmlNode → ℚ × ℚ → ℚ × ℚ → ℚ × ℚ × ℚ →
    Except Err XmlNode
  | 0, _, _, _, _ => Except.error Err.fuelExhausted
  | fuel + 1, item, pos_t, ref_t, scale_t =>
    if |1 - (ref_t.1 ^ 2 + ref_t.2 ^ 2)| > 1 / 10000 then
      Except.error Err.assertionError
    else
      (positionStep pos_t ref_t scale_t item).bind fun cs =>
      (mapExcept (coordinateUpdate pos_t ref_t scale_t) cs).bind fun cs =>
      (radiusStep scale_t (XmlNode.mk item.tag item.attrib cs item.text)).bind fun item2 =>
      (mapExcept (fun c => set_scale_angle_pos fuel c pos_t ref_t scale_t)
        item2.children).bind fun cs2 =>
      Except.ok (XmlNode.mk item2.tag item2.attrib cs2 item2.text)

/-- Python `list.insert(i, x)` (an index past the end appends). -/
def insertAt (n : ℕ) (a : α) : List α → List α
  | [] => [a]
  | x :: xs =>
      match n with
      | 0 => a :: x :: xs
      | m + 1 => x :: insertAt m a xs

/-- The metadata tags of a catalog template that `process_shape_reference`
does not splice into the host node. -/
def SPLICE_SKIP_TAGS : List String :=
  ["Presentation", "Extent", "Position", "GenericAttributes", "Min", "Max"]

/-- The splice loop of `process_shape_reference`: each non-metadata
template child is transformed and inserted into the host's children at the
running index (starting from 1). -/
def spliceItems (fuel : ℕ) (pos ref : ℚ × ℚ) (scale : ℚ × ℚ × ℚ) :
    List XmlNode → XmlNode → ℕ → Except Err XmlNode
  | [], node, _ => Except.ok node
  | item :: rest, node, idx =>
    if item.tag ∈ SPLICE_SKIP_TAGS then
      spliceItems fuel pos ref scale rest node idx
    else do
      let item' ← set_scale_angle_pos fuel item pos ref scale
      spliceItems fuel pos ref scale rest
        (XmlNode.mk node.tag node.attrib (insertAt idx item' node.children) node.text)
        (idx + 1)

/-- `process_shape_reference` from proteus_utils: with no catalog hit it
does nothing; otherwise it reads the host's `Position/Location`,
`Position/Reference` and optional `Scale` (each value times the unit
scale, defaulting to (1, 1, 1)), transforms every non-metadata direct
child of the template with `set_scale_angle_pos`, and splices the results
into the host's children starting at index 1. -/
def process_shape_reference (fuel : ℕ) (node : XmlNode)
    (shape_reference : Option XmlNode) (ctx : Context) : Except Err XmlNode := do
  match shape_reference with
  | none => Except.ok node
  | some sref => do
    let pos ← match node.findCh "Position" with
      | none => Except.error Err.attributeError
      | some p => Except.ok p
    let loc ← match pos.findCh "Location" with
      | none => Except.error Err.attributeError
      | some l => Except.ok l
    let pos_x ← (· * ctx.units) <$> pyFloatItem loc "X"
    let pos_y ← (· * ctx.units) <$> pyFloatItem loc "Y"
    let refn ← match pos.findCh "Reference" with
      | none => Except.error Err.attributeError
      | some r => Except.ok r
    let ref_x ← (· * ctx.units) <$> pyFloatItem refn "X"
    let ref_y ← (· * ctx.units) <$> pyFloatItem refn "Y"
    let scale ← match node.findCh "Scale" with
      | none => Except.ok ((1 : ℚ), (1 : ℚ), (1 : ℚ))
      | some sc => do
          let sx ← (· * ctx.units) <$> pyFloatItem sc "X"
          let sy ← (· * ctx.units) <$> pyFloatItem sc "Y"
          let sz ← (· * ctx.units) <$> pyFloatItem sc "Z"
          Except.ok (sx, sy, sz)
    spliceItems fuel (pos_x, pos_y) (ref_x, ref_y) scale sref.children node 1

/-! ## handlers (proteus_lib/handlers.py) -/

/-- Render an attribute value where the code uses it as a string (attribute
values are strings in lxml; a numeric value never occurs at these uses). -/
def attrValStr : AttrVal → String
  | AttrVal.str s => s
  | AttrVal.num q => toString q

/-- Lookup in an svgwrite element's `attribs` dictionary. -/
def dictGet (l : List (String × Option String)) (k : String) :
    Option (Option String) :=
  (l.find? (fun p => p.1 == k)).map Prod.snd

/-- Python dict assignment on `attribs`: replace an existing key in place,
else append. -/
def dictSet (l : List (String × Option String)) (k : String)
    (v : Option String) : List (String × Option String) :=
  if l.any (fun p => p.1 == k) then
    l.map (fun p => if p.1 == k then (k, v) else p)
  else
    l ++ [(k, v)]

/-- `x_, y_ = map(lambda x: float(x) * ctx.units.value, itemgetter('X', 'Y')(attrib))`:
both keys read first (KeyError), then parsed and unit-scaled. -/
def coordXY (ctx : Context) (c : XmlNode) : Except Err (ℚ × ℚ) := do
  let xv ← pyItem c "X"
  let yv ← pyItem c "Y"
  let x ← (· * ctx.units) <$> pyFloat xv
  let y ← (· * ctx.units) <$> pyFloat yv
  Except.ok (x, y)

/-- Python `round` to the nearest integer, ties to even. -/
def pyRound (q : ℚ) : ℤ :=
  let f := ⌊q⌋
  let r := q - f
  if r < 1 / 2 then f
  else if 1 / 2 < r then f + 1
  else if f % 2 = 0 then f else f + 1

/-- The alternatives of `LINEBREAK_PATTERN`, tried in order at each
position (the leftmost-first semantics of `re.split` on this alternation). -/
def lbPatterns : List (List Char) :=
  ["\r\n".data, "\r".data, "\n".data, "&#xD;&#xA;".data, "&#xD;".data, "&#xA;".data]

/-- Try the line-break alternatives in order against a character-list head;
return the remainder after the first match. -/
def tryLbPatterns : List (List Char) → List Char → Option (List Char)
  | [], _ => none
  | p :: ps, cs =>
      if p.isPrefixOf cs then some (cs.drop p.length) else tryLbPatterns ps cs

/-- Worker for `re.split(LINEBREAK_PATTERN, s)`; the fuel is the remaining
input length plus one, each step consumes at least one character. -/
def splitLbAux : ℕ → List Char → List Char → List String
  | 0, cs, acc => [String.mk (acc.reverse ++ cs)]
  | _ + 1, [], acc => [String.mk acc.reverse]
  | fuel + 1, c :: rest, acc =>
      match tryLbPatterns lbPatterns (c :: rest) with
      | some remaining => String.mk acc.reverse :: splitLbAux fuel remaining []
      | none => splitLbAux fuel rest (c :: acc)

/-- `re.split(LINEBREAK_PATTERN, s)` from handlers.py. -/
def splitLinebreaks (s : String) : List String :=
  splitLbAux (s.length + 1) s.data []

/-- `line_handler`: requires tag `Line`, exactly two `Coordinate` children
(AssertionError otherwise) and a `Presentation` child (AssertionError);
resolves stroke color, unit-scales the `LineWeight`, flips Y against
`ctx.y_max`, and sets the dash array when the line type list is non-empty. -/
def line_handler (node : XmlNode) (ctx : Context) : Except Err SvgElem := do
  ensure_type (some node) "Line"
  match node.findallCh "Coordinate" with
  | [c0, c1] => do
    match node.findCh "Presentation" with
    | none => Except.error Err.assertionError
    | some pres => do
      let stroke_color ← fetch_color_from_presentation (some pres)
      let stroke_width ← (· * ctx.units) <$> pyFloatOpt (pres.getAttr "LineWeight")
      let xminv ← pyItem c0 "X"
      let yminv ← pyItem c0 "Y"
      let xmaxv ← pyItem c1 "X"
      let ymaxv ← pyItem c1 "Y"
      let x_min ← (· * ctx.units) <$> pyFloat xminv
      let y_min ← (· * ctx.units) <$> pyFloat yminv
      let x_max ← (· * ctx.units) <$> pyFloat xmaxv
      let y_max ← (· * ctx.units) <$> pyFloat ymaxv
      let dl ← fetch_line_type_from_presentation (some pres)
      Except.ok (SvgElem.mk
        (SvgKind.lineSeg (x_min, ctx.y_max - y_min) (x_max, ctx.y_max - y_max)
          stroke_color stroke_width dl) [])
  | _ => Except.error Err.assertionError

/-- Resolve stroke color and unit-scaled line weight from the node's own
presentation, falling back to the parent's presentation when the node has
none (`node.getparent().find('Presentation')`); a missing parent is the
`AttributeError` of `None.find`. -/
def strokeFromPresentationOrParent (pres : Option XmlNode)
    (parent : Option XmlNode) (ctx : Context) : Except Err (String × ℚ) := do
  match pres with
  | none => do
    match parent with
    | none => Except.error Err.attributeError
    | some par => do
      let pp := par.findCh "Presentation"
      let col ← fetch_color_from_presentation pp
      let w ← (· * ctx.units) <$> pyFloatOpt (pp.bind (fun p => p.getAttr "LineWeight"))
      Except.ok (col, w)
  | some p => do
    let col ← fetch_color_from_presentation (some p)
    let w ← (· * ctx.units) <$> pyFloatOpt (p.getAttr "LineWeight")
    Except.ok (col, w)

/-- The M-then-L path construction shared by the centerline, polyline and
shape handlers (the `start_point` flag loop). -/
def pathOpsOfCoordinates (ctx : Context) (coordinates : List XmlNode) :
    Except Err (List PathOp) := do
  let (opsRev, _) ← coordinates.foldlM
    (fun (acc : List PathOp × Bool) c => do
      let (x, y) ← coordXY ctx c
      let op := if acc.2 then PathOp.moveTo x (ctx.y_max - y)
        else PathOp.lineTo x (ctx.y_max - y)
      Except.ok (op :: acc.1, false))
    ([], true)
  Except.ok opsRev.reverse

/-- `centerline_handler`: color and weight from the own presentation or the
parent fallback, path built from the coordinates, fill = stroke when the
`Filled` flag is truthy; the final dash lookup is made on the node's own
presentation object (`None` in the fallback branch). -/
def centerline_handler (node : XmlNode) (parent : Option XmlNode)
    (ctx : Context) : Except Err SvgElem := do
  ensure_type (some node) "CenterLine"
  let pres := node.findCh "Presentation"
  let (stroke_color, stroke_width) ← strokeFromPresentationOrParent pres parent ctx
  let coordinates := node.findallCh "Coordinate"
  let is_filled := pyTruthy (node.getAttr "Filled")
  let ops ← pathOpsOfCoordinates ctx coordinates
  let dl ← fetch_line_type_from_presentation pres
  Except.ok (SvgElem.mk
    (SvgKind.pathShape ops stroke_color (if is_filled then stroke_color else "none")
      (some stroke_width) none dl) [])

/-- `polyline_handler`: same construction as the centerline handler for tag
`PolyLine`, including the dash lookup on the own (possibly absent)
presentation. -/
def polyline_handler (node : XmlNode) (parent : Option XmlNode)
    (ctx : Context) : Except Err SvgElem := do
  ensure_type (some node) "PolyLine"
  let pres := node.findCh "Presentation"
  let (stroke_color, stroke_width) ← strokeFromPresentationOrParent pres parent ctx
  let coordinates := node.findallCh "Coordinate"
  let is_filled := pyTruthy (node.getAttr "Filled")
  let ops ← pathOpsOfCoordinates ctx coordinates
  let dl ← fetch_line_type_from_presentation pres
  Except.ok (SvgElem.mk
    (SvgKind.pathShape ops stroke_color (if is_filled then stroke_color else "none")
      (some stroke_width) none dl) [])

/-- `shape_handler`: the closed-shape variant for tag `Shape`: stroke width
goes into the style string, and a close-path operation is pushed after the
dash lookup (also made on the own, possibly absent, presentation). -/
def shape_handler (node : XmlNode) (parent : Option XmlNode)
    (ctx : Context) : Except Err SvgElem := do
  ensure_type (some node) "Shape"
  let pres := node.findCh "Presentation"
  let (stroke_color, stroke_width) ← strokeFromPresentationOrParent pres parent ctx
  let coordinates := node.findallCh "Coordinate"
  let is_filled := pyTruthy (node.getAttr "Filled")
  let ops ← pathOpsOfCoordinates ctx coordinates
  let dl ← fetch_line_type_from_presentation pres
  Except.ok (SvgElem.mk
    (SvgKind.pathShape (ops ++ [PathOp.closePath]) stroke_color
      (if is_filled then stroke_color else "none") none (some stroke_width) dl) [])

/-- `circle_handler`: mandatory presentation (AssertionError), unit-scaled
radius and line weight, center from `Position/Location` with the Y flip,
fill per the `Filled` flag. -/
def circle_handler (node : XmlNode) (ctx : Context) : Except Err SvgElem := do
  ensure_type (some node) "Circle"
  match node.findCh "Presentation" with
  | none => Except.error Err.assertionError
  | some pres => do
    let stroke_color ← fetch_color_from_presentation (some pres)
    let stroke_width ← (· * ctx.units) <$> pyFloatOpt (pres.getAttr "LineWeight")
    let radius ← (· * ctx.units) <$> pyFloatOpt (node.getAttr "Radius")
    let is_filled := pyTruthy (node.getAttr "Filled")
    let loc ← match node.findCh "Position" with
      | none => Except.error Err.attributeError
      | some p =>
          match p.findCh "Location" with
          | none => Except.error Err.attributeError
          | some l => Except.ok l
    let (x_pos, y_pos) ← coordXY ctx loc
    Except.ok (SvgElem.mk
      (SvgKind.circleShape (x_pos, ctx.y_max - y_pos) radius
        (if is_filled then stroke_color else "none") stroke_color stroke_width) [])

/-- `extent_handler`: debug bounding-box overlay; type check (`None` fails
it), `Min`/`Max` corner points (read without unit scaling), Y flip, red
outline of stroke width 0.1 (the constant mouse-over handlers are not
modelled). -/
def extent_handler (node : Option XmlNode) (ctx : Context) :
    Except Err SvgElem := do
  ensure_type node "Extent"
  match node with
  | none => Except.error Err.valueError
  | some n => do
    let minN ← match n.findCh "Min" with
      | none => Except.error Err.attributeError
      | some m => Except.ok m
    let maxN ← match n.findCh "Max" with
      | none => Except.error Err.attributeError
      | some m => Except.ok m
    let xminv ← pyItem minN "X"
    let yminv ← pyItem minN "Y"
    let xmaxv ← pyItem maxN "X"
    let ymaxv ← pyItem maxN "Y"
    let x_min ← pyFloat xminv
    let y_min0 ← pyFloat yminv
    let x_max ← pyFloat xmaxv
    let y_max0 ← pyFloat ymaxv
    let y_min := ctx.y_max - y_min0
    let y_max := ctx.y_max - y_max0
    let rect_width := x_max - x_min
    let rect_height := y_min - y_max
    Except.ok (SvgElem.mk
      (SvgKind.rectShape (x_min, y_min - rect_height) (rect_width, rect_height)
        "red" "none" (1 / 10)) [])

/-- The class attribute of `create_group`:
`' '.join(set([node.tag, comp_class or ''])).strip()`.  When the set is a
singleton (or one member is empty) the result is determined; with two
distinct non-empty members Python's set iteration order is unspecified and
is modelled here as tag-then-class. -/
def classNameOf (t : String) (cc : Option String) : String :=
  match cc with
  | none => t
  | some c => if c = "" ∨ c = t then t else t ++ " " ++ c

/-- `create_group`: an empty SVG group carrying `data-type` and the
optional identifying attributes copied from the element, plus the class
attribute. -/
def create_group (node : XmlNode) : SvgElem :=
  let base : List (String × Option String) := [("data-type", some node.tag)]
  let base := match node.getAttr "ID" with
    | some v => base ++ [("id", some (attrValStr v))]
    | none => base
  let comp_class := node.getAttr "ComponentClass"
  let base := match comp_class with
    | some v => base ++ [("data-component-class", some (attrValStr v))]
    | none => base
  let base := match node.getAttr "ComponentName" with
    | some v => base ++ [("data-component-name", some (attrValStr v))]
    | none => base
  let base := match node.getAttr "TagName" with
    | some v => base ++ [("data-tag-name", some (attrValStr v))]
    | none => base
  let base := match node.getAttr "Specification" with
    | some v => base ++ [("data-specification", some (attrValStr v))]
    | none => base
  let base := base ++
    [("class", some (classNameOf node.tag (comp_class.map attrValStr)))]
  SvgElem.mk (SvgKind.groupBox base) []

/-- `equipment_handler`: group creation, originating-system generic
attributes (only `comos` is supported; other origins fail), optional
description, then catalog instancing keyed by the group's
`data-component-name` when present.  Returns the group and the (possibly
spliced) node. -/
def equipment_handler (fuel : ℕ) (node : XmlNode) (ctx : Context) :
    Except Err (SvgElem × XmlNode) := do
  ensure_type (some node) "Equipment"
  let eq_group := create_group node
  let specs ← ctx.attributes_to_add_from_origin
  let origin := lowerStr (ctx.origin.getD "")
  let attribs0 := match eq_group.kind with
    | SvgKind.groupBox l => l
    | _ => []
  let attribs ← specs.foldlM
    (fun acc spec =>
      spec.values.foldlM
        (fun acc2 v => do
          let key := "data-" ++ origin ++ "-" ++ lowerStr v
          let value ← get_gen_attr_val node spec.set v
          match value with
          | some s => Except.ok (dictSet acc2 key (some s))
          | none => Except.ok acc2)
        acc)
    attribs0
  let attribs := match node.findCh "Description" with
    | some d => dictSet attribs "data-description" d.text
    | none => attribs
  match dictGet attribs "data-component-name" with
  | some cn => do
    let sref := ctx.get_from_shape_catalog "Equipment" cn
    let node' ← process_shape_reference fuel node sref ctx
    Except.ok (SvgElem.mk (SvgKind.groupBox attribs) [], node')
  | none => Except.ok (SvgElem.mk (SvgKind.groupBox attribs) [], node)

/-- `nozzle_handler`: group creation, then catalog instancing keyed by the
group's `data-component-name`, whose absence is a KeyError
(`nozzle_group.attribs[DATA_COMPONENT_NAME]`). -/
def nozzle_handler (fuel : ℕ) (node : XmlNode) (ctx : Context) :
    Except Err (SvgElem × XmlNode) := do
  ensure_type (some node) "Nozzle"
  let nozzle_group := create_group node
  let attribs := match nozzle_group.kind with
    | SvgKind.groupBox l => l
    | _ => []
  match dictGet attribs "data-component-name" with
  | none => Except.error Err.keyError
  | some cn => do
    let sref := ctx.get_from_shape_catalog "Nozzle" cn
    let node' ← process_shape_reference fuel node sref ctx
    Except.ok (nozzle_group, node')

/-- `drawing_handler`: a plain group for the drawing root. -/
def drawing_handler (node : XmlNode) : Except Err SvgElem := do
  ensure_type (some node) "Drawing"
  Except.ok (create_group node)

/-- `trimmed_curve_handler`: an arc over an underlying `Circle` definition
(ellipse basis is explicitly not implemented); the endpoint trigonometry of
`describe_arc` is carried symbolically (center, radius, angles, large-arc
flag), and the handler's translate and vertical-mirror transform of the
resulting path is recorded. -/
def trimmed_curve_handler (node : XmlNode) (ctx : Context) :
    Except Err SvgElem := do
  let (x, y, radius, stroke_color, stroke_width) ←
    match node.findCh "Circle" with
    | some circle_node => do
        ensure_type (some circle_node) "Circle"
        let pres := circle_node.findCh "Presentation"
        let radius ← (· * ctx.units) <$> pyFloatOpt (circle_node.getAttr "Radius")
        let loc ← match circle_node.findCh "Position" with
          | none => Except.error Err.attributeError
          | some p =>
              match p.findCh "Location" with
              | none => Except.error Err.attributeError
              | some l => Except.ok l
        let (x, y) ← coordXY ctx loc
        let stroke_color ← fetch_color_from_presentation pres
        let stroke_width ← (· * ctx.units) <$>
          pyFloatOpt (pres.bind (fun p => p.getAttr "LineWeight"))
        Except.ok (x, y, radius, stroke_color, stroke_width)
    | none => Except.error Err.notImplementedError
  let sav ← pyItem node "StartAngle"
  let eav ← pyItem node "EndAngle"
  let start_angle ← pyFloat sav
  let end_angle ← pyFloat eav
  let large_arc := decide (end_angle - start_angle > 180)
  Except.ok (SvgElem.mk
    (SvgKind.arcPath (x, ctx.y_max - y) radius start_angle end_angle large_arc
      stroke_color stroke_width (0, (ctx.y_max - y) * 2) (1, -1)) [])

/-- `piping_component_handler`: group plus catalog instancing keyed by the
node's own `ComponentName` attribute. -/
def piping_component_handler (fuel : ℕ) (node : XmlNode) (ctx : Context) :
    Except Err (SvgElem × XmlNode) := do
  ensure_type (some node) "PipingComponent"
  let grp := create_group node
  let sref := ctx.get_from_shape_catalog "PipingComponent"
    ((node.getAttr "ComponentName").map attrValStr)
  let node' ← process_shape_reference fuel node sref ctx
  Except.ok (grp, node')

/-- `process_instrument_handler`: same pattern for `ProcessInstrument`. -/
def process_instrument_handler (fuel : ℕ) (node : XmlNode) (ctx : Context) :
    Except Err (SvgElem × XmlNode) := do
  ensure_type (some node) "ProcessInstrument"
  let grp := create_group node
  let sref := ctx.get_from_shape_catalog "ProcessInstrument"
    ((node.getAttr "ComponentName").map attrValStr)
  let node' ← process_shape_reference fuel node sref ctx
  Except.ok (grp, node')

/-- `instrument_component_handler`: same pattern for `InstrumentComponent`. -/
def instrument_component_handler (fuel : ℕ) (node : XmlNode) (ctx : Context) :
    Except Err (SvgElem × XmlNode) := do
  ensure_type (some node) "InstrumentComponent"
  let grp := create_group node
  let sref := ctx.get_from_shape_catalog "InstrumentComponent"
    ((node.getAttr "ComponentName").map attrValStr)
  let node' ← process_shape_reference fuel node sref ctx
  Except.ok (grp, node')

/-- `process_instrumentation_function_handler`: catalog instancing first,
then group creation from the spliced node. -/
def process_instrumentation_function_handler (fuel : ℕ) (node : XmlNode)
    (ctx : Context) : Except Err (SvgElem × XmlNode) := do
  ensure_type (some node) "ProcessInstrumentationFunction"
  let sref := ctx.get_from_shape_catalog "ProcessInstrumentationFunction"
    ((node.getAttr "ComponentName").map attrValStr)
  let node' ← process_shape_reference fuel node sref ctx
  Except.ok (create_group node', node')

/-- `label_handler`: catalog instancing first, then group creation. -/
def label_handler (fuel : ℕ) (node : XmlNode) (ctx : Context) :
    Except Err (SvgElem × XmlNode) := do
  ensure_type (some node) "Label"
  let sref := ctx.get_from_shape_catalog "Label"
    ((node.getAttr "ComponentName").map attrValStr)
  let node' ← process_shape_reference fuel node sref ctx
  Except.ok (create_group node', node')

/-- `pipe_connector_symbol_handler`: group, optional cross-page-connection
data attributes, and catalog instancing only when the node carries a
`ComponentName`. -/
def pipe_connector_symbol_handler (fuel : ℕ) (node : XmlNode) (ctx : Context) :
    Except Err (SvgElem × XmlNode) := do
  ensure_type (some node) "PipeConnectorSymbol"
  let grp := create_group node
  let attribs0 := match grp.kind with
    | SvgKind.groupBox l => l
    | _ => []
  let attribs := match node.findCh "CrossPageConnection" with
    | some cpc =>
        let a := dictSet attribs0 "data-drawing-name"
          ((cpc.getAttr "DrawingName").map attrValStr)
        dictSet a "data-drawing-link-label"
          ((cpc.getAttr "LinkLabel").map attrValStr)
    | none => attribs0
  match node.getAttr "ComponentName" with
  | some cn => do
    let sref := ctx.get_from_shape_catalog "PipeConnectorSymbol"
      (some (attrValStr cn))
    let node' ← process_shape_reference fuel node sref ctx
    Except.ok (SvgElem.mk (SvgKind.groupBox attribs) [], node')
  | none => Except.ok (SvgElem.mk (SvgKind.groupBox attribs) [], node)

/-- `piping_network_system_handler`: a plain group. -/
def piping_network_system_handler (node : XmlNode) : Except Err SvgElem := do
  ensure_type (some node) "PipingNetworkSystem"
  Except.ok (create_group node)

/-- `piping_network_segment_handler`: a plain group. -/
def piping_network_segment_handler (node : XmlNode) : Except Err SvgElem := do
  ensure_type (some node) "PipingNetworkSegment"
  Except.ok (create_group node)

/-- `component_handler`: group plus catalog instancing keyed by the node's
`ComponentName`. -/
def component_handler (fuel : ℕ) (node : XmlNode) (ctx : Context) :
    Except Err (SvgElem × XmlNode) := do
  ensure_type (some node) "Component"
  let grp := create_group node
  let sref := ctx.get_from_shape_catalog "Component"
    ((node.getAttr "ComponentName").map attrValStr)
  let node' ← process_shape_reference fuel node sref ctx
  Except.ok (grp, node')

/-- `text_handler`: split the `String` attribute on the recognized
line-break sequences; a falsy `String` yields no primitive.  Font size is
the unit-scaled `Height` rounded (Python banker's rounding), the fill
color falls back to black without a presentation, justification prefixes
and suffixes pick the anchor and baseline (unknown values are
ValueErrors), the position falls back to the parent's `Position`, and the
rotation is the negated `TextAngle` around the flipped anchor point.
Later lines become tspan children offset by the font size. -/
def text_handler (node : XmlNode) (parent : Option XmlNode) (ctx : Context) :
    Except Err (Option SvgElem) := do
  ensure_type (some node) "Text"
  let sOpt : Except Err (Option String) :=
    match node.getAttr "String" with
    | some (AttrVal.str s) => Except.ok (if s = "" then none else some s)
    | some (AttrVal.num q) =>
        if q = 0 then Except.ok none else Except.error Err.typeError
    | none => Except.ok none
  match ← sOpt with
  | none => Except.ok none
  | some s => do
    let text_arr := splitLinebreaks s
    let text_font := node.getAttr "Font"
    let text_size := pyRound ((← pyFloatOpt (node.getAttr "Height")) * ctx.units)
    let text_color ← match node.findCh "Presentation" with
      | some p => fetch_color_from_presentation (some p)
      | none => Except.ok "#000000"
    let text_angle ← match node.getAttr "TextAngle" with
      | some v => pyFloat v
      | none => Except.ok (0 : ℚ)
    let text_justification ← match node.getAttr "Justification" with
      | none => Except.ok "LeftBottom"
      | some (AttrVal.str j) => Except.ok (if j = "" then "LeftBottom" else j)
      | some (AttrVal.num q) =>
          if q = 0 then Except.ok "LeftBottom" else Except.error Err.attributeError
    let svg_jst ←
      if startsWithStr text_justification "Left" then Except.ok "start"
      else if startsWithStr text_justification "Right" then Except.ok "end"
      else if startsWithStr text_justification "Center" then Except.ok "middle"
      else Except.error Err.valueError
    let alignment_baseline ←
      if endsWithStr text_justification "Top" then Except.ok "baseline"
      else if endsWithStr text_justification "Center" then Except.ok "middle"
      else if endsWithStr text_justification "Bottom" then Except.ok "hanging"
      else Except.error Err.valueError
    let text_pos ← match node.findCh "Position" with
      | some p => Except.ok (some p)
      | none =>
          match parent with
          | none => Except.error Err.attributeError
          | some par => Except.ok (par.findCh "Position")
    let loc ← match text_pos with
      | none => Except.error Err.attributeError
      | some p =>
          match p.findCh "Location" with
          | none => Except.error Err.attributeError
          | some l => Except.ok l
    let (text_pos_x, text_pos_y) ← coordXY ctx loc
    let head := text_arr.headD ""
    let spans := text_arr.tail.map (fun sp =>
      SvgElem.mk (SvgKind.tspanRun sp text_pos_x text_size svg_jst
        alignment_baseline) [])
    Except.ok (some (SvgElem.mk
      (SvgKind.textRun head text_pos_x
        (ctx.y_max - text_pos_y - (text_size : ℚ) / 2) text_size text_font
        text_color svg_jst alignment_baseline
        (-text_angle, (text_pos_x, -(text_pos_y - ctx.y_max))))
      spans))

/-- `dummy_handler`: no primitive. -/
def dummy_handler : Except Err (Option SvgElem) := Except.ok none

/-- The tag list that `resolve_node_handler` maps to the dummy handler. -/
def DUMMY_TAGS : List String :=
  ["Association", "Connection", "PlantModel", "PlantInformation", "PlantStructureItem", "Extent",
   "Presentation", "ActuatingSystem", "ActuatingSystemComponent", "ActuatingFunction",
   "ShapeCatalogue", "Position", "DrawingBorder", "PropertyBreak", "Description",
   "Scale", "PersistentID", "GenericAttributes", "ConnectionPoints", "MinimumDesignPressure",
   "PipeFlowArrow", "SignalLine", "InformationFlow", "MaximumDesignPressure",
   "MaximumDesignTemperature", "MinimumDesignTemperature", "InstrumentLoop",
   "InstrumentationLoopFunction", "NominalDiameter", "CrossPageConnection"]

/-- `resolve_node_handler` followed by the handler call: dispatch by tag
over the fixed table (dummy list first), an unrecognized tag raising
NotImplementedError.  Returns the optional primitive and the possibly
spliced node. -/
def run_handler (fuel : ℕ) (node : XmlNode) (parent : Option XmlNode)
    (ctx : Context) : Except Err (Option SvgElem × XmlNode) := do
  let t := node.tag
  if t ∈ DUMMY_TAGS then do
    let r ← dummy_handler
    Except.ok (r, node)
  else if t = "Line" then do
    let e ← line_handler node ctx
    Except.ok (some e, node)
  else if t = "CenterLine" then do
    let e ← centerline_handler node parent ctx
    Except.ok (some e, node)
  else if t = "PolyLine" then do
    let e ← polyline_handler node parent ctx
    Except.ok (some e, node)
  else if t = "Shape" then do
    let e ← shape_handler node parent ctx
    Except.ok (some e, node)
  else if t = "Text" then do
    let r ← text_handler node parent ctx
    Except.ok (r, node)
  else if t = "Circle" then do
    let e ← circle_handler node ctx
    Except.ok (some e, node)
  else if t = "Drawing" then do
    let e ← drawing_handler node
    Except.ok (some e, node)
  else if t = "TrimmedCurve" then do
    let e ← trimmed_curve_handler node ctx
    Except.ok (some e, node)
  else if t = "Equipment" then do
    let (e, n') ← equipment_handler fuel node ctx
    Except.ok (some e, n')
  else if t = "Nozzle" then do
    let (e, n') ← nozzle_handler fuel node ctx
    Except.ok (some e, n')
  else if t = "PipingComponent" then do
    let (e, n') ← piping_component_handler fuel node ctx
    Except.ok (some e, n')
  else if t = "Label" then do
    let (e, n') ← label_handler fuel node ctx
    Except.ok (some e, n')
  else if t = "ProcessInstrumentationFunction" then do
    let (e, n') ← process_instrumentation_function_handler fuel node ctx
    Except.ok (some e, n')
  else if t = "PipeConnectorSymbol" then do
    let (e, n') ← pipe_connector_symbol_handler fuel node ctx
    Except.ok (some e, n')
  else if t = "PipingNetworkSystem" then do
    let e ← piping_network_system_handler node
    Except.ok (some e, node)
  else if t = "PipingNetworkSegment" then do
    let e ← piping_network_segment_handler node
    Except.ok (some e, node)
  else if t = "ProcessInstrument" then do
    let (e, n') ← process_instrument_handler fuel node ctx
    Except.ok (some e, n')
  else if t = "InstrumentComponent" then do
    let (e, n') ← instrument_component_handler fuel node ctx
    Except.ok (some e, n')
  else if t = "Component" then do
    let (e, n') ← component_handler fuel node ctx
    Except.ok (some e, n')
  else
    Except.error Err.notImplementedError

/-- Sequential walk of a child list with a processing function whose
outputs are concatenated (the `for child in list(node)` loop shape). -/
def concatMapExcept (f : XmlNode → Except Err (List SvgElem)) :
    List XmlNode → Except Err (List SvgElem)
  | [] => Except.ok []
  | c :: rest => do
    let here ← f c
    let more ← concatMapExcept f rest
    Except.ok (here ++ more)

/-- `process_node`: resolve and run the handler; a produced primitive is
appended to the caller's container, followed (in debug mode) by the
bounding-box overlay of the node's `Extent` child; children are walked only
for container tags, nesting into the produced primitive when there is one
and flattening into the caller's container otherwise.  The returned list
is what gets appended to the caller's container.  One fuel unit is spent
per tree level; the source recursion is bounded by the finite document. -/
def process_node : ℕ → XmlNode → Option XmlNode → Context →
    Except Err (List SvgElem)
  | 0, _, _, _ => Except.error Err.fuelExhausted
  | fuel + 1, node, xparent, ctx => do
    let (result, node') ← run_handler (fuel + 1) node xparent ctx
    let dbg ← match result with
      | some _ =>
          if ctx.debug then do
            let r ← extent_handler (node'.findCh "Extent") ctx
            Except.ok [r]
          else Except.ok []
      | none => Except.ok ([] : List SvgElem)
    let kids ← if should_process_child node.tag then
        concatMapExcept (fun c => process_node fuel c (some node') ctx) node'.children
      else Except.ok []
    match result with
    | some prim => Except.ok (prim.addAll kids :: dbg)
    | none => Except.ok kids

/-- The walk of a container's children: each child processed with the
spliced node as its XML parent, outputs concatenated in order. -/
def process_children (fuel : ℕ) (cs : List XmlNode) (parentNode : XmlNode)
    (ctx : Context) : Except Err (List SvgElem) :=
  concatMapExcept (fun c => process_node fuel c (some parentNode) ctx) cs

/-! ## Concrete node builders used by the theorems -/

/-- A presentation node carrying only the color channels. -/
def mkPresentationRGB (r g b : ℚ) : XmlNode :=
  XmlNode.mk "Presentation"
    [("R", AttrVal.num r), ("G", AttrVal.num g), ("B", AttrVal.num b)] [] none

/-- A presentation node carrying only a line type. -/
def mkPresentationLT (lt : String) : XmlNode :=
  XmlNode.mk "Presentation" [("LineType", AttrVal.str lt)] [] none

/-- A full presentation node: color, line weight and line type. -/
def mkPresentationFull (r g b w : ℚ) (lt : String) : XmlNode :=
  XmlNode.mk "Presentation"
    [("R", AttrVal.num r), ("G", AttrVal.num g), ("B", AttrVal.num b),
     ("LineWeight", AttrVal.num w), ("LineType", AttrVal.str lt)] [] none

/-- A coordinate point element. -/
def mkCoord (x y : ℚ) : XmlNode :=
  XmlNode.mk "Coordinate" [("X", AttrVal.num x), ("Y", AttrVal.num y)] [] none

/-- A position element with a location point. -/
def mkPosition (x y : ℚ) : XmlNode :=
  XmlNode.mk "Position" []
    [XmlNode.mk "Location" [("X", AttrVal.num x), ("Y", AttrVal.num y)] [] none] none

/-- A line element with two coordinate children and a presentation. -/
def mkLineNode (x1 y1 x2 y2 : ℚ) (pres : XmlNode) : XmlNode :=
  XmlNode.mk "Line" [] [mkCoord x1 y1, mkCoord x2 y2, pres] none

/-- A circle element with radius, presentation and position. -/
def mkCircleNode (x y radius : ℚ) (pres : XmlNode) : XmlNode :=
  XmlNode.mk "Circle" [("Radius", AttrVal.num radius)]
    [pres, mkPosition x y] none

example : fetch_line_type_from_presentation (some (mkPresentationLT "2")) = Except.ok [3] := rfl
example : fetch_line_type_from_presentation (some (mkPresentationLT "Dashed")) = Except.ok [3] := rfl
example : fetch_line_type_from_presentation (some (mkPresentationLT "9")) = Except.error Err.valueError := rfl
example : fetch_color_from_presentation (some (mkPresentationRGB 1 1 1)) = Except.ok "#FFFFFF" := by
  simp only [fetch_color_from_presentation, mkPresentationRGB, ensure_type, pyFloatItem,
    pyItem, XmlNode.getAttr, XmlNode.attrib, XmlNode.tag, compute_rgb, rgb_to_hex_string,
    toHex2, hexDigit, pyFloat, List.find?, Option.map, Except.bind, bind]
  norm_num
  try simp
  try norm_num
  try rfl
example : fetch_color_from_presentation (some (mkPresentationRGB 0 0 0)) = Except.ok "#000000" := by
  simp only [fetch_color_from_presentation, mkPresentationRGB, ensure_type, pyFloatItem,
    pyItem, XmlNode.getAttr, XmlNode.attrib, XmlNode.tag, compute_rgb, rgb_to_hex_string,
    toHex2, hexDigit, pyFloat, List.find?, Option.map, Except.bind, bind]
  norm_num
  try simp
  try norm_num
  try rfl
example (x1 y1 x2 y2 u ym : ℚ) :
    line_handler (mkLineNode x1 y1 x2 y2 (mkPresentationFull 0 0 0 1 "0"))
      { x_min := 0, x_max := 420, y_min := 0, y_max := ym, units := u } =
    Except.ok (SvgElem.mk (SvgKind.lineSeg (x1 * u, ym - y1 * u) (x2 * u, ym - y2 * u)
      "#000000" (1 * u) []) []) := by
  simp only [line_handler, mkLineNode, mkPresentationFull, mkCoord, ensure_type,
    XmlNode.findallCh, XmlNode.findCh, XmlNode.children, XmlNode.tag, XmlNode.attrib,
    List.filter, List.find?, fetch_color_from_presentation, pyFloatItem,
    pyItem, XmlNode.getAttr, compute_rgb, rgb_to_hex_string,
    toHex2, hexDigit, pyFloat, pyFloatOpt, fetch_line_type_from_presentation, lowerStr,
    Option.map, Except.bind, bind]
  norm_num
  try simp
  try norm_num
  try rfl

/-! ## Claims -/

/-- C4: `dashPattern` is a pure function of the LineType code accepting
numeric codes 0-7 and their case-insensitive names: code 0 yields [],
1 yields [1], 2 yields [3], 3 yields [4,1], 4 yields [4,1,2,1],
5 yields [2,1], 6 yields [4,1,2,1,2,1], 7 yields [3,1,2,1]; any other
code (e.g. 9) is a fatal error. -/
theorem dash_pattern_table_c4 :
    fetch_line_type_from_presentation (some (mkPresentationLT "0")) = Except.ok []
  ∧ fetch_line_type_from_presentation (some (mkPresentationLT "1")) = Except.ok [1]
  ∧ fetch_line_type_from_presentation (some (mkPresentationLT "2")) = Except.ok [3]
  ∧ fetch_line_type_from_presentation (some (mkPresentationLT "3")) = Except.ok [4, 1]
  ∧ fetch_line_type_from_presentation (some (mkPresentationLT "4")) = Except.ok [4, 1, 2, 1]
  ∧ fetch_line_type_from_presentation (some (mkPresentationLT "5")) = Except.ok [2, 1]
  ∧ fetch_line_type_from_presentation (some (mkPresentationLT "6")) = Except.ok [4, 1, 2, 1, 2, 1]
  ∧ fetch_line_type_from_presentation (some (mkPresentationLT "7")) = Except.ok [3, 1, 2, 1]
  ∧ fetch_line_type_from_presentation (some (mkPresentationLT "Solid")) = Except.ok []
  ∧ fetch_line_type_from_presentation (some (mkPresentationLT "Dotted")) = Except.ok [1]
  ∧ fetch_line_type_from_presentation (some (mkPresentationLT "Dashed")) = Except.ok [3]
  ∧ fetch_line_type_from_presentation (some (mkPresentationLT "Long Dash")) = Except.ok [4, 1]
  ∧ fetch_line_type_from_presentation (some (mkPresentationLT "Long Dash + Short Dash, CenterLine")) =
      Except.ok [4, 1, 2, 1]
  ∧ fetch_line_type_from_presentation (some (mkPresentationLT "Short Dash")) = Except.ok [2, 1]
  ∧ fetch_line_type_from_presentation (some (mkPresentationLT "Long Dash + Short Dash + Short Dash")) =
      Except.ok [4, 1, 2, 1, 2, 1]
  ∧ fetch_line_type_from_presentation (some (mkPresentationLT "Dash + Short Dash")) =
      Except.ok [3, 1, 2, 1]
  ∧ fetch_line_type_from_presentation (some (mkPresentationLT "DASHED")) = Except.ok [3]
  ∧ fetch_line_type_from_presentation (some (mkPresentationLT "sOlId")) = Except.ok []
  ∧ fetch_line_type_from_presentation (some (mkPresentationLT "9")) = Except.error Err.valueError
  ∧ fetch_line_type_from_presentation (some (mkPresentationLT "8")) = Except.error Err.valueError :=
  ⟨rfl, rfl, rfl, rfl, rfl, rfl, rfl, rfl, rfl, rfl, rfl, rfl, rfl, rfl, rfl, rfl,
   rfl, rfl, rfl, rfl⟩

/-- The node-level color pipeline applied to a presentation with numeric
R, G, B attributes reduces to `compute_rgb` followed by
`rgb_to_hex_string`. -/
theorem fetch_color_mkPres (r g b : ℚ) :
    fetch_color_from_presentation (some (mkPresentationRGB r g b)) =
      compute_rgb r g b >>= fun t => rgb_to_hex_string t.1 t.2.1 t.2.2 := rfl

/-- Out-of-range channels make `compute_rgb` fail with a ValueError. -/
theorem compute_rgb_out_of_range (r g b : ℚ)
    (h : ¬(0 ≤ r ∧ r ≤ 1) ∨ ¬(0 ≤ g ∧ g ≤ 1) ∨ ¬(0 ≤ b ∧ b ≤ 1)) :
    compute_rgb r g b = Except.error Err.valueError := by
  unfold compute_rgb
  by_cases h1 : 0 ≤ r ∧ r ≤ 1 <;> by_cases h2 : 0 ≤ g ∧ g ≤ 1 <;>
    by_cases h3 : 0 ≤ b ∧ b ≤ 1 <;> simp [h1, h2, h3] <;> tauto

/-- In-range channels floor through `compute_rgb`. -/
theorem compute_rgb_in_range (r g b : ℚ)
    (h1 : 0 ≤ r ∧ r ≤ 1) (h2 : 0 ≤ g ∧ g ≤ 1) (h3 : 0 ≤ b ∧ b ≤ 1) :
    compute_rgb r g b = Except.ok (⌊r * 255⌋, ⌊g * 255⌋, ⌊b * 255⌋) := by
  unfold compute_rgb
  simp [h1, h2, h3]

/-- The floored channel of an in-range channel is in [0, 255]. -/
theorem floor_channel_mem (r : ℚ) (h : 0 ≤ r ∧ r ≤ 1) :
    0 ≤ ⌊r * 255⌋ ∧ ⌊r * 255⌋ ≤ 255 := by
  constructor
  · exact Int.le_floor.mpr (by push_cast; nlinarith [h.1])
  · calc ⌊r * 255⌋ ≤ ⌊(255 : ℚ)⌋ := Int.floor_le_floor (by nlinarith [h.2])
      _ = 255 := by norm_num

/-- C3: for every triple of attribute values R, G, B the color pipeline
fails with a ValueError when any channel lies outside [0, 1]; when all
three lie in [0, 1] it returns `#` followed by the two-digit uppercase
hexadecimal of `floor(channel * 255)` for R, G, B in that order; and
`color(1,1,1) = "#FFFFFF"`, `color(0,0,0) = "#000000"`. -/
theorem color_contract_c3 (r g b : ℚ) :
    ((¬(0 ≤ r ∧ r ≤ 1) ∨ ¬(0 ≤ g ∧ g ≤ 1) ∨ ¬(0 ≤ b ∧ b ≤ 1)) →
      fetch_color_from_presentation (some (mkPresentationRGB r g b)) =
        Except.error Err.valueError)
  ∧ ((0 ≤ r ∧ r ≤ 1) → (0 ≤ g ∧ g ≤ 1) → (0 ≤ b ∧ b ≤ 1) →
      fetch_color_from_presentation (some (mkPresentationRGB r g b)) =
        Except.ok ("#" ++ toHex2 ⌊r * 255⌋ ++ toHex2 ⌊g * 255⌋ ++ toHex2 ⌊b * 255⌋))
  ∧ fetch_color_from_presentation (some (mkPresentationRGB 1 1 1)) = Except.ok "#FFFFFF"
  ∧ fetch_color_from_presentation (some (mkPresentationRGB 0 0 0)) = Except.ok "#000000" := by
  refine ⟨?_, ?_, ?_, ?_⟩
  · intro h
    rw [fetch_color_mkPres, compute_rgb_out_of_range r g b h]
    rfl
  · intro h1 h2 h3
    rw [fetch_color_mkPres, compute_rgb_in_range r g b h1 h2 h3]
    have hr := floor_channel_mem r h1
    have hg := floor_channel_mem g h2
    have hb := floor_channel_mem b h3
    simp only [Except.bind, bind, rgb_to_hex_string]
    rw [if_neg (by tauto), if_neg (by tauto), if_neg (by tauto)]
  · simp only [fetch_color_from_presentation, mkPresentationRGB, ensure_type, pyFloatItem,
      pyItem, XmlNode.getAttr, XmlNode.attrib, XmlNode.tag, compute_rgb, rgb_to_hex_string,
      toHex2, hexDigit, pyFloat, List.find?, Option.map, Except.bind, bind]
    norm_num
    try simp
    try norm_num
    try rfl
  · simp only [fetch_color_from_presentation, mkPresentationRGB, ensure_type, pyFloatItem,
      pyItem, XmlNode.getAttr, XmlNode.attrib, XmlNode.tag, compute_rgb, rgb_to_hex_string,
      toHex2, hexDigit, pyFloat, List.find?, Option.map, Except.bind, bind]
    norm_num
    try simp
    try norm_num
    try rfl

/-- Witness for C3 at concrete inputs: a negative channel fails, and a
mid-range gray goes through the floor-and-hex pipeline. -/
theorem color_contract_c3_witness :
    fetch_color_from_presentation (some (mkPresentationRGB (-1/10) 0 0)) =
      Except.error Err.valueError
  ∧ fetch_color_from_presentation (some (mkPresentationRGB (1/2) (1/2) (1/2))) =
      Except.ok ("#" ++ toHex2 ⌊(1/2 : ℚ) * 255⌋ ++ toHex2 ⌊(1/2 : ℚ) * 255⌋ ++
        toHex2 ⌊(1/2 : ℚ) * 255⌋) :=
  ⟨(color_contract_c3 (-1/10) 0 0).1 (Or.inl (by norm_num)),
   (color_contract_c3 (1/2) (1/2) (1/2)).2.1 (by norm_num) (by norm_num) (by norm_num)⟩

/-- C2: the line and circle handlers map a source point (x, y) to output
coordinates `svgX = x * unitScale` and `svgY = yMax - y * unitScale`; in
particular, for `yMax = 594`, unit scale 1 and source y = 100, the output
y coordinate is exactly 494. -/
theorem coordinate_flip_c2 :
    (∀ (x1 y1 x2 y2 u ym xm xM ymn : ℚ),
      line_handler (mkLineNode x1 y1 x2 y2 (mkPresentationFull 0 0 0 1 "0"))
        { x_min := xm, x_max := xM, y_min := ymn, y_max := ym, units := u } =
      Except.ok (SvgElem.mk (SvgKind.lineSeg (x1 * u, ym - y1 * u) (x2 * u, ym - y2 * u)
        "#000000" (1 * u) []) []))
  ∧ (∀ (cx cy radius u ym xm xM ymn : ℚ),
      circle_handler (mkCircleNode cx cy radius (mkPresentationFull 0 0 0 1 "0"))
        { x_min := xm, x_max := xM, y_min := ymn, y_max := ym, units := u } =
      Except.ok (SvgElem.mk (SvgKind.circleShape (cx * u, ym - cy * u) (radius * u)
        "none" "#000000" (1 * u)) []))
  ∧ line_handler (mkLineNode 0 0 10 100 (mkPresentationFull 0 0 0 1 "0"))
      { x_min := 0, x_max := 420, y_min := 0, y_max := 594, units := 1 } =
    Except.ok (SvgElem.mk (SvgKind.lineSeg (0, 594) (10, 494) "#000000" 1 []) []) := by
  refine ⟨?_, ?_, ?_⟩
  · intro x1 y1 x2 y2 u ym xm xM ymn
    simp only [line_handler, mkLineNode, mkPresentationFull, mkCoord, ensure_type,
      XmlNode.findallCh, XmlNode.findCh, XmlNode.children, XmlNode.tag, XmlNode.attrib,
      List.filter, List.find?, fetch_color_from_presentation, pyFloatItem,
      pyItem, XmlNode.getAttr, compute_rgb, rgb_to_hex_string,
      toHex2, hexDigit, pyFloat, pyFloatOpt, fetch_line_type_from_presentation, lowerStr,
      Option.map, Except.bind, bind]
    norm_num
    try simp
    try norm_num
    try rfl
  · intro cx cy radius u ym xm xM ymn
    simp only [circle_handler, mkCircleNode, mkPosition, mkPresentationFull, ensure_type,
      XmlNode.findallCh, XmlNode.findCh, XmlNode.children, XmlNode.tag, XmlNode.attrib,
      List.filter, List.find?, fetch_color_from_presentation, pyFloatItem, coordXY,
      pyItem, XmlNode.getAttr, compute_rgb, rgb_to_hex_string, pyTruthy,
      toHex2, hexDigit, pyFloat, pyFloatOpt, lowerStr,
      Option.map, Except.bind, bind]
    norm_num
    try simp
    try norm_num
    try rfl
  · simp only [line_handler, mkLineNode, mkPresentationFull, mkCoord, ensure_type,
      XmlNode.findallCh, XmlNode.findCh, XmlNode.children, XmlNode.tag, XmlNode.attrib,
      List.filter, List.find?, fetch_color_from_presentation, pyFloatItem,
      pyItem, XmlNode.getAttr, compute_rgb, rgb_to_hex_string,
      toHex2, hexDigit, pyFloat, pyFloatOpt, fetch_line_type_from_presentation, lowerStr,
      Option.map, Except.bind, bind]
    norm_num
    try simp
    try norm_num
    try rfl

/-- C5: the line-segment handler fails whenever the Line element does not
contain exactly two Coordinate children or lacks a Presentation
sub-element; when both preconditions hold (and the presentation resolves)
it returns a straight segment carrying the resolved stroke color, the
unit-scaled stroke width, and the dash pattern. -/
theorem line_handler_contract_c5 :
    (∀ (node : XmlNode) (ctx : Context), node.tag = "Line" →
        (node.findallCh "Coordinate").length ≠ 2 →
        line_handler node ctx = Except.error Err.assertionError)
  ∧ (∀ (node : XmlNode) (ctx : Context), node.tag = "Line" →
        (node.findallCh "Coordinate").length = 2 →
        node.findCh "Presentation" = none →
        line_handler node ctx = Except.error Err.assertionError)
  ∧ (∀ (x1 y1 x2 y2 r g b w : ℚ) (lt col : String) (dl : List ℕ) (ctx : Context),
        fetch_color_from_presentation (some (mkPresentationFull r g b w lt)) =
          Except.ok col →
        fetch_line_type_from_presentation (some (mkPresentationFull r g b w lt)) =
          Except.ok dl →
        line_handler (mkLineNode x1 y1 x2 y2 (mkPresentationFull r g b w lt)) ctx =
          Except.ok (SvgElem.mk
            (SvgKind.lineSeg (x1 * ctx.units, ctx.y_max - y1 * ctx.units)
              (x2 * ctx.units, ctx.y_max - y2 * ctx.units) col (w * ctx.units) dl) [])) := by
  refine ⟨?_, ?_, ?_⟩
  · intro node ctx htag hlen
    unfold line_handler
    rw [show ensure_type (some node) "Line" = Except.ok () from by simp [ensure_type, htag]]
    rcases h : node.findallCh "Coordinate" with _ | ⟨c0, _ | ⟨c1, _ | ⟨c2, rest⟩⟩⟩ <;>
      simp_all [Except.bind, bind]
  · intro node ctx htag hlen hpres
    unfold line_handler
    rw [show ensure_type (some node) "Line" = Except.ok () from by simp [ensure_type, htag]]
    rcases h : node.findallCh "Coordinate" with _ | ⟨c0, _ | ⟨c1, _ | ⟨c2, rest⟩⟩⟩ <;>
      simp_all [Except.bind, bind]
  · intro x1 y1 x2 y2 r g b w lt col dl ctx hcol hdl
    simp only [mkPresentationFull] at hcol hdl
    simp only [line_handler, mkLineNode, mkCoord, mkPresentationFull, ensure_type,
      XmlNode.findallCh, XmlNode.findCh, XmlNode.children, XmlNode.tag, XmlNode.attrib,
      List.filter, List.find?, Option.map, pyItem, pyFloatItem, pyFloat, pyFloatOpt,
      XmlNode.getAttr, Except.bind, bind]
    try simp
    rw [hcol]
    try simp [Except.bind, bind]
    rw [hdl]
    try simp

/-- Witness for C5: one coordinate only fails; two coordinates without a
presentation fail; the spec's end-to-end line scenario (coordinates
(0,0)-(10,5), red presentation with weight 2 and line type 2, yMax = 20,
unit scale 1) produces the segment (0,20)-(10,15) with stroke #FF0000,
width 2 and dash pattern [3]. -/
theorem line_handler_contract_c5_witness :
    line_handler (XmlNode.mk "Line" [] [mkCoord 0 0] none)
      { x_min := 0, x_max := 420, y_min := 0, y_max := 20, units := 1 } =
      Except.error Err.assertionError
  ∧ line_handler (XmlNode.mk "Line" [] [mkCoord 0 0, mkCoord 1 1] none)
      { x_min := 0, x_max := 420, y_min := 0, y_max := 20, units := 1 } =
      Except.error Err.assertionError
  ∧ line_handler (mkLineNode 0 0 10 5 (mkPresentationFull 1 0 0 2 "2"))
      { x_min := 0, x_max := 420, y_min := 0, y_max := 20, units := 1 } =
      Except.ok (SvgElem.mk (SvgKind.lineSeg (0 * 1, 20 - 0 * 1) (10 * 1, 20 - 5 * 1)
        "#FF0000" (2 * 1) [3]) []) := by
  refine ⟨?_, ?_, ?_⟩
  · exact line_handler_contract_c5.1 _ _ rfl
      (by simp [XmlNode.findallCh, XmlNode.children, List.filter, XmlNode.tag, mkCoord])
  · exact line_handler_contract_c5.2.1 _ _ rfl
      (by simp [XmlNode.findallCh, XmlNode.children, List.filter, XmlNode.tag, mkCoord])
      (by simp [XmlNode.findCh, XmlNode.children, List.find?, XmlNode.tag, mkCoord])
  · refine line_handler_contract_c5.2.2 0 0 10 5 1 0 0 2 "2" "#FF0000" [3] _ ?_ rfl
    simp only [fetch_color_from_presentation, mkPresentationFull, ensure_type, pyFloatItem,
      pyItem, XmlNode.getAttr, XmlNode.attrib, XmlNode.tag, compute_rgb, rgb_to_hex_string,
      toHex2, hexDigit, pyFloat, List.find?, Option.map, Except.bind, bind]
    norm_num
    try simp
    try norm_num
    try rfl

/-- C7: the transform applicator validates the rotation reference
(cosφ, sinφ) against the unit-circle identity with tolerance 1e-4:
reference (0.6, 0.9) is rejected with an AssertionError for every input,
and reference (0.6, 0.8) is accepted. -/
theorem rotation_reference_c7 :
    (∀ (fuel : ℕ) (item : XmlNode) (pos : ℚ × ℚ) (scale : ℚ × ℚ × ℚ),
      set_scale_angle_pos (fuel + 1) item pos (6/10, 9/10) scale =
        Except.error Err.assertionError)
  ∧ (∃ out, set_scale_angle_pos 1 (XmlNode.mk "Equipment" [] [] none) (0, 0)
      (6/10, 8/10) (1, 1, 1) = Except.ok out) := by
  constructor
  · intro fuel item pos scale
    simp only [set_scale_angle_pos]
    norm_num
    intro h
    rw [abs_of_nonneg (by norm_num)] at h
    norm_num at h
  · refine ⟨XmlNode.mk "Equipment" [] [] none, ?_⟩
    simp only [set_scale_angle_pos]
    norm_num
    simp [XmlNode.findCh, XmlNode.children, XmlNode.getAttr, XmlNode.attrib,
      XmlNode.tag, XmlNode.text, List.find?, mapExcept, positionStep, radiusStep,
      coordinateUpdate, positionLocUpdate, updateFirst,
      Except.bind, bind]

/-- Eta for XML nodes. -/
theorem XmlNode.eta (n : XmlNode) :
    XmlNode.mk n.tag n.attrib n.children n.text = n := by
  cases n
  rfl

/-- Bind on `Except` produces a value exactly through a value of the first
step. -/
theorem bindE_ok {α β : Type} (x : Except Err α) (f : α → Except Err β) (b : β) :
    x.bind f = Except.ok b ↔ ∃ a, x = Except.ok a ∧ f a = Except.ok b := by
  cases x <;> simp [Except.bind]

/-- Writing back the value an attribute already has leaves the attribute
list unchanged. -/
theorem setAttrList_self (k : String) (v : AttrVal) (l : List (String × AttrVal))
    (h : (l.find? (fun p => p.1 == k)).map Prod.snd = some v) :
    XmlNode.setAttrList k v l = l := by
  induction l with
  | nil => simp [List.find?] at h
  | cons p rest ih =>
    by_cases hk : p.1 == k
    · simp only [List.find?, hk, Option.map] at h
      have hkeq : p.1 = k := by simpa using hk
      have hveq : p.2 = v := by simpa using h
      simp [XmlNode.setAttrList, hk, ← hkeq, ← hveq]
    · simp only [List.find?, hk, Bool.false_eq_true, if_false] at h
      simp only [XmlNode.setAttrList, hk, Bool.false_eq_true, if_false]
      rw [ih h]

/-- Writing back the value an attribute already has leaves the node
unchanged. -/
theorem setAttr_self (n : XmlNode) (k : String) (v : AttrVal)
    (h : n.getAttr k = some v) : n.setAttr k v = n := by
  unfold XmlNode.setAttr
  rw [setAttrList_self k v n.attrib (by simpa [XmlNode.getAttr] using h)]
  exact XmlNode.eta n

/-- A successful numeric read means the attribute holds that number. -/
theorem pyFloatItem_ok (c : XmlNode) (k : String) (q : ℚ)
    (h : pyFloatItem c k = Except.ok q) : c.getAttr k = some (AttrVal.num q) := by
  unfold pyFloatItem pyItem at h
  rcases hg : c.getAttr k with _ | v <;> rw [hg] at h
  · simp [Except.bind, bind] at h
  · cases v with
    | str s => simp [Except.bind, bind, pyFloat] at h
    | num q' =>
      simp only [Except.bind, bind, pyFloat] at h
      cases h
      rfl

/-- The identity transform (translation (0,0), rotation (1,0), scale
(1,1,1)) leaves a coordinate-carrying element unchanged when it succeeds. -/
theorem applyT_id (c c' : XmlNode)
    (h : applyTransformation2d (0, 0) (1, 0) (1, 1, 1) c = Except.ok c') :
    c' = c := by
  unfold applyTransformation2d at h
  rcases hx : pyFloatItem c "X" with ex | px <;> rw [hx] at h
  · simp [Except.bind, bind] at h
  rcases hy : pyFloatItem c "Y" with ey | py <;> rw [hy] at h
  · simp [Except.bind, bind] at h
  simp only [Except.bind, bind, Except.ok.injEq] at h
  have hxa := pyFloatItem_ok c "X" px hx
  have hya := pyFloatItem_ok c "Y" py hy
  have e1 : (0 : ℚ) + (1 * (1 * px) - 0 * (1 * py)) = px := by ring
  have e2 : (0 : ℚ) + (0 * (1 * px) + 1 * (1 * py)) = py := by ring
  rw [e1, e2] at h
  rw [← h, setAttr_self c "X" (AttrVal.num px) hxa,
    setAttr_self c "Y" (AttrVal.num py) (by simpa [XmlNode.setAttr] using hya)]

/-- A per-element identity lifts through `mapExcept`. -/
theorem mapExcept_id (f : XmlNode → Except Err XmlNode)
    (hf : ∀ c c', f c = Except.ok c' → c' = c) :
    ∀ (l l' : List XmlNode), mapExcept f l = Except.ok l' → l' = l := by
  intro l
  induction l with
  | nil =>
    intro l' h
    simp [mapExcept] at h
    exact h
  | cons c rest ih =>
    intro l' h
    simp only [mapExcept, Except.bind, bind] at h
    rcases hc : f c with e | c' <;> rw [hc] at h
    · simp at h
    rcases hr : mapExcept f rest with e | rest' <;> rw [hr] at h
    · simp at h
    simp only [Except.ok.injEq] at h
    rw [← h, hf c c' hc, ih rest' hr]

/-- A per-element identity lifts through `updateFirst`. -/
theorem updateFirst_id (p : XmlNode → Bool) (f : XmlNode → Except Err XmlNode)
    (hf : ∀ c c', f c = Except.ok c' → c' = c) :
    ∀ (l l' : List XmlNode), updateFirst p f l = Except.ok l' → l' = l := by
  intro l
  induction l with
  | nil =>
    intro l' h
    simp only [updateFirst, Except.ok.injEq] at h
    exact h.symm
  | cons c rest ih =>
    intro l' h
    simp only [updateFirst] at h
    cases hc : p c <;> rw [hc] at h
    · rw [if_neg (by simp)] at h
      simp only [Except.bind, bind] at h
      rcases hr : updateFirst p f rest with e | rest' <;> rw [hr] at h
      · simp at h
      simp only [Except.ok.injEq] at h
      rw [← h, ih rest' hr]
    · rw [if_pos rfl] at h
      simp only [Except.bind, bind] at h
      rcases hfc : f c with e | c' <;> rw [hfc] at h
      · simp at h
      simp only [Except.ok.injEq] at h
      rw [← h, hf c c' hfc]


/-- The `Position`-rewrite step of the identity transform leaves the
position element unchanged when it succeeds. -/
theorem posUpd_id (p p' : XmlNode)
    (h : positionLocUpdate (0, 0) (1, 0) (1, 1, 1) p = Except.ok p') :
    p' = p := by
  unfold positionLocUpdate at h
  rcases hloc : p.findCh "Location" with _ | loc <;> rw [hloc] at h
  · simp at h
  · simp only [Except.bind, bind] at h
    rcases hup : updateFirst (fun c => c.tag == "Location")
        (applyTransformation2d (0, 0) (1, 0) (1, 1, 1)) p.children with e | lcs <;>
      rw [hup] at h
    · simp at h
    · have hl : lcs = p.children :=
        updateFirst_id _ _ applyT_id p.children lcs hup
      simp only [Except.ok.injEq] at h
      rw [← h, hl, XmlNode.eta]

/-- The per-child `Coordinate` rewrite of the identity transform is the
identity when it succeeds. -/
theorem coordStep_id (c c' : XmlNode)
    (h : coordinateUpdate (0, 0) (1, 0) (1, 1, 1) c = Except.ok c') : c' = c := by
  unfold coordinateUpdate at h
  by_cases hc : c.tag == "Coordinate"
  · rw [if_pos hc] at h
    exact applyT_id c c' h
  · rw [if_neg hc] at h
    simp only [Except.ok.injEq] at h
    exact h.symm


/-- The position step of the identity transform returns the child list
unchanged when it succeeds. -/
theorem positionStep_id (item : XmlNode) (cs : List XmlNode)
    (h : positionStep (0, 0) (1, 0) (1, 1, 1) item = Except.ok cs) :
    cs = item.children := by
  unfold positionStep at h
  rcases hpos : item.findCh "Position" with _ | p <;> rw [hpos] at h
  · simp only [Except.ok.injEq] at h
    exact h.symm
  · exact updateFirst_id _ _ posUpd_id _ _ h

/-- The radius step of the identity transform (x-scale 1) returns the node
unchanged when it succeeds. -/
theorem radiusStep_id (n n' : XmlNode)
    (h : radiusStep (1, 1, 1) n = Except.ok n') : n' = n := by
  unfold radiusStep at h
  rcases hrad : n.getAttr "Radius" with _ | v <;> rw [hrad] at h
  · simp only [Except.ok.injEq] at h
    exact h.symm
  · cases v with
    | str sv => simp [pyFloat, Except.bind] at h
    | num r =>
      simp only [pyFloat, Except.bind, Except.ok.injEq, mul_one] at h
      rw [← h, setAttr_self n "Radius" (AttrVal.num r) hrad]

/-- C6: applying the catalog-instancing transform with translation (0, 0),
rotation reference (1, 0) and scale (1, 1, 1) is the identity on the
subtree whenever it succeeds: every `Position/Location` point, every
`Coordinate` point and every `Radius` attribute keeps its value. -/
theorem identity_instancing_c6 : ∀ (fuel : ℕ) (item out : XmlNode),
    set_scale_angle_pos fuel item (0, 0) (1, 0) (1, 1, 1) = Except.ok out →
    out = item := by
  intro fuel
  induction fuel with
  | zero =>
    intro item out h
    simp [set_scale_angle_pos] at h
  | succ fuel ih =>
    intro item out h
    simp only [set_scale_angle_pos] at h
    rw [if_neg (by norm_num)] at h
    rw [bindE_ok] at h
    obtain ⟨cs0, h1, h⟩ := h
    have hcs0 : cs0 = item.children := positionStep_id _ _ h1
    subst hcs0
    try dsimp only at h
    rw [bindE_ok] at h
    obtain ⟨cs1, h2, h⟩ := h
    have hcs1 : cs1 = item.children := mapExcept_id _ coordStep_id _ _ h2
    subst hcs1
    try dsimp only at h
    rw [bindE_ok] at h
    obtain ⟨item2, h3, h⟩ := h
    try dsimp only at h
    rw [XmlNode.eta] at h3
    rw [radiusStep_id _ _ h3] at h
    rw [bindE_ok] at h
    obtain ⟨cs2, h4, h⟩ := h
    try dsimp only at h
    have hcs2 : cs2 = item.children := mapExcept_id _ (fun c c' hc => ih c c' hc) _ _ h4
    subst hcs2
    simp only [Except.ok.injEq] at h
    rw [← h, XmlNode.eta]

/-- A concrete catalog-template element: a circle with a position, a
coordinate point and a radius. -/
def c6Sample : XmlNode :=
  XmlNode.mk "Circle" [("Radius", AttrVal.num 5)] [mkPosition 3 4, mkCoord 1 2] none

/-- Witness for C6: on the concrete sample the identity-parameter
transform succeeds and returns the template unchanged. -/
theorem identity_instancing_c6_witness :
    set_scale_angle_pos 3 c6Sample (0, 0) (1, 0) (1, 1, 1) = Except.ok c6Sample ∧
    c6Sample = c6Sample := by
  have heval : set_scale_angle_pos 3 c6Sample (0, 0) (1, 0) (1, 1, 1) =
      Except.ok c6Sample := by
    rw [show (3 : ℕ) = 0 + 1 + 1 + 1 from rfl]
    simp [set_scale_angle_pos, positionStep, radiusStep, positionLocUpdate,
      coordinateUpdate, applyTransformation2d, updateFirst, mapExcept, c6Sample,
      mkPosition, mkCoord, XmlNode.findCh, XmlNode.children, XmlNode.tag,
      XmlNode.attrib, XmlNode.text, XmlNode.getAttr, XmlNode.setAttr,
      XmlNode.setAttrList, pyFloatItem, pyItem, pyFloat, List.find?, Option.map,
      Except.bind, bind]
    try norm_num
    try simp
    try norm_num
    try rfl
  exact ⟨heval, identity_instancing_c6 3 c6Sample c6Sample heval⟩

/-- C10: with no shape catalog in the context, or with a catalog holding no
descendant whose tag and `ComponentName` match the request, catalog lookup
returns nothing; and instancing with no catalog hit leaves the host node
completely unchanged. -/
theorem catalog_miss_noop_c10 :
    (∀ (xm xM ymn ym u : ℚ) (origin : Option String) (dbg : Bool) (t : String)
        (c : Option String),
      Context.get_from_shape_catalog
        { x_min := xm, x_max := xM, y_min := ymn, y_max := ym, origin := origin,
          debug := dbg, units := u, shape_catalog := none } t c = none)
  ∧ (∀ (ctx : Context) (cat : XmlNode) (t : String) (c : Option String),
      ctx.shape_catalog = some cat →
      (∀ d ∈ cat.descendants, ¬(d.tag = t ∧
        d.getAttr "ComponentName" = some (AttrVal.str (pyFStrOpt c)))) →
      ctx.get_from_shape_catalog t c = none)
  ∧ (∀ (fuel : ℕ) (node : XmlNode) (ctx : Context),
      process_shape_reference fuel node none ctx = Except.ok node) := by
  refine ⟨?_, ?_, ?_⟩
  · intro xm xM ymn ym u origin dbg t c
    rfl
  · intro ctx cat t c hcat hnone
    unfold Context.get_from_shape_catalog
    rw [hcat]
    rw [List.find?_eq_none]
    intro d hd
    have hh := hnone d hd
    simp only [Bool.and_eq_true, beq_iff_eq, not_and] at hh ⊢
    tauto
  · intro fuel node ctx
    rfl

/-- A one-entry shape catalog: an equipment template named CMP1. -/
def c10Catalog : XmlNode :=
  XmlNode.mk "ShapeCatalogue" []
    [XmlNode.mk "Equipment" [("ComponentName", AttrVal.str "CMP1")] [] none] none

/-- Witness for C10: a catalog-free context misses, a catalog without the
requested name misses, and instancing with no hit returns the host node. -/
theorem catalog_miss_noop_c10_witness :
    Context.get_from_shape_catalog
      { x_min := 0, x_max := 420, y_min := 0, y_max := 594, origin := none,
        debug := false, units := 1, shape_catalog := none } "Equipment"
      (some "CMP1") = none
  ∧ Context.get_from_shape_catalog
      { x_min := 0, x_max := 420, y_min := 0, y_max := 594, origin := none,
        debug := false, units := 1, shape_catalog := some c10Catalog } "Equipment"
      (some "OTHER") = none
  ∧ process_shape_reference 1 c6Sample none
      { x_min := 0, x_max := 420, y_min := 0, y_max := 594 } =
      Except.ok c6Sample := by
  constructor
  · exact catalog_miss_noop_c10.1 0 420 0 594 1 none false "Equipment" (some "CMP1")
  constructor
  · refine catalog_miss_noop_c10.2.1 _ c10Catalog "Equipment" (some "OTHER") rfl ?_
    intro d hd
    simp [c10Catalog, XmlNode.descendants, XmlNode.children, descList] at hd
    subst hd
    simp [XmlNode.getAttr, XmlNode.attrib, XmlNode.tag, List.find?, pyFStrOpt]
  · exact catalog_miss_noop_c10.2.2 1 c6Sample _

/-- A parent node carrying a complete presentation (black, weight 1,
solid), as the fallback source for presentation-less curve elements. -/
def c8Parent : XmlNode :=
  XmlNode.mk "Drawing" [] [mkPresentationFull 0 0 0 1 "0"] none

/-- The conversion context used by the concrete counterexamples. -/
def ctx0 : Context :=
  { x_min := 0, x_max := 420, y_min := 0, y_max := 594 }

/-- C8 (documenting the defect): for a CenterLine / PolyLine / Shape
element without its own Presentation, the handlers resolve stroke color
and width from the parent's presentation, but the final dash-pattern
lookup is made on the element's own absent presentation
(`fetch_line_type_from_presentation(presentation_obj)` with `None`), so
the handler raises a ValueError instead of returning a path; the
parent-presentation fallback alone succeeds, and a curve element with its
own presentation does return a path. -/
theorem presentation_fallback_crash_c8 :
    centerline_handler (XmlNode.mk "CenterLine" [] [mkCoord 1 2] none)
      (some c8Parent) ctx0 = Except.error Err.valueError
  ∧ polyline_handler (XmlNode.mk "PolyLine" [] [mkCoord 1 2] none)
      (some c8Parent) ctx0 = Except.error Err.valueError
  ∧ shape_handler (XmlNode.mk "Shape" [] [mkCoord 1 2] none)
      (some c8Parent) ctx0 = Except.error Err.valueError
  ∧ strokeFromPresentationOrParent none (some c8Parent) ctx0 =
      Except.ok ("#000000", 1 * 1)
  ∧ centerline_handler
      (XmlNode.mk "CenterLine" [] [mkCoord 1 2, mkPresentationFull 0 0 0 1 "0"] none)
      none ctx0 =
      Except.ok (SvgElem.mk (SvgKind.pathShape [PathOp.moveTo (1 * 1) (594 - 2 * 1)]
        "#000000" "none" (some (1 * 1)) none []) []) := by
  refine ⟨?_, ?_, ?_, ?_, ?_⟩ <;>
  · simp only [centerline_handler, polyline_handler, shape_handler,
      strokeFromPresentationOrParent, pathOpsOfCoordinates, coordXY, c8Parent, ctx0,
      mkCoord, mkPresentationFull, ensure_type, fetch_color_from_presentation,
      fetch_line_type_from_presentation, compute_rgb, rgb_to_hex_string, toHex2,
      hexDigit, lowerStr, pyFloatItem, pyItem, pyFloat, pyFloatOpt, pyTruthy,
      XmlNode.findallCh, XmlNode.findCh, XmlNode.children, XmlNode.tag,
      XmlNode.attrib, XmlNode.getAttr, List.filter, List.find?, List.foldlM,
      Option.map, Option.bind, Except.bind, bind]
    try norm_num
    try simp
    try norm_num
    try rfl

/-- The conversion context with the debug flag set. -/
def ctxDbg : Context :=
  { x_min := 0, x_max := 420, y_min := 0, y_max := 594, debug := true }

/-- Counterexample to C9: in debug mode, a Drawing node whose handler
produces a group but which has no `Extent` child makes the conversion fail
with a ValueError (`extent_handler` receives `None`), rather than skipping
the overlay. -/
theorem debug_overlay_crash_c9 :
    process_node 1 (XmlNode.mk "Drawing" [] [] none) none ctxDbg =
      Except.error Err.valueError := by
  rw [show (1 : ℕ) = 0 + 1 from rfl]
  simp [process_node, run_handler, drawing_handler, dummy_handler, create_group,
    classNameOf, DUMMY_TAGS, ensure_type, extent_handler, should_process_child,
    COMPLEX_NODES, concatMapExcept, XmlNode.findCh, XmlNode.children, XmlNode.tag,
    XmlNode.attrib, XmlNode.getAttr, List.find?, Option.map, ctxDbg,
    Except.bind, bind]

/-- C9 as amended: when `context.debug` is set and the handler returned a
primitive, the engine unconditionally derives the bounding-box overlay
from the node's `Extent` child; when that child is present the overlay
rectangle is attached after the primitive, and when it is absent the
conversion fails with a ValueError (the overlay is not skipped). -/
theorem debug_overlay_c9_amended :
    (∀ (fuel : ℕ) (attrs : List (String × AttrVal)) (cs : List XmlNode)
        (parent : Option XmlNode),
      (XmlNode.mk "Drawing" attrs cs none).findCh "Extent" = none →
      process_node (fuel + 1) (XmlNode.mk "Drawing" attrs cs none) parent ctxDbg =
        Except.error Err.valueError)
  ∧ process_node 2 (XmlNode.mk "Drawing" []
      [XmlNode.mk "Extent" []
        [XmlNode.mk "Min" [("X", AttrVal.num 10), ("Y", AttrVal.num 20)] [] none,
         XmlNode.mk "Max" [("X", AttrVal.num 30), ("Y", AttrVal.num 50)] [] none]
        none] none)
      none ctxDbg =
      Except.ok [SvgElem.mk (SvgKind.groupBox
          [("data-type", some "Drawing"), ("class", some "Drawing")]) [],
        SvgElem.mk (SvgKind.rectShape (10, 544) (20, 30) "red" "none" (1 / 10)) []] := by
  constructor
  · intro fuel attrs cs parent hext
    simp [process_node, run_handler, drawing_handler, dummy_handler, DUMMY_TAGS,
      ensure_type, extent_handler, XmlNode.tag, ctxDbg, hext, Except.bind, bind]
  · rw [show (2 : ℕ) = 0 + 1 + 1 from rfl]
    simp [process_node, run_handler, drawing_handler, dummy_handler, create_group,
      classNameOf, DUMMY_TAGS, ensure_type, extent_handler, should_process_child,
      COMPLEX_NODES, concatMapExcept, SvgElem.addAll, XmlNode.findCh,
      XmlNode.children, XmlNode.tag, XmlNode.attrib, XmlNode.getAttr, pyItem,
      pyFloat, List.find?, Option.map, ctxDbg, Except.bind, bind]
    norm_num
    try simp
    try norm_num
    try rfl

/-- Witness for the amended C9 at a concrete input: a Drawing without an
`Extent` child fails in debug mode. -/
theorem debug_overlay_c9_witness :
    process_node 1 (XmlNode.mk "Drawing" [("ID", AttrVal.str "d1")] [] none) none
      ctxDbg = Except.error Err.valueError :=
  debug_overlay_c9_amended.1 0 [("ID", AttrVal.str "d1")] [] none rfl

/-- C1: children are walked exactly for tags in the fixed container set,
and the container passed down is the produced primitive when there is one,
else the caller's container.  Conjuncts: membership facts of the container
set; a non-container (Presentation) never walks its children, whatever
they are; a container whose handler produces a group (PipingNetworkSegment)
nests its children's output inside that group; a container whose handler
produces nothing (PlantModel) flattens its children's output into the
caller's container; and two concrete runs showing a bogus child is only
reached (and only raises NotImplementedError) under a container tag. -/
theorem dispatch_recursion_c1 :
    (should_process_child "PlantModel" = true ∧ should_process_child "Drawing" = true ∧
     should_process_child "Label" = true ∧ should_process_child "Nozzle" = true ∧
     should_process_child "PipingNetworkSystem" = true ∧
     should_process_child "PipingNetworkSegment" = true ∧
     should_process_child "Equipment" = true ∧ should_process_child "SignalLine" = true ∧
     should_process_child "Line" = false ∧ should_process_child "Circle" = false ∧
     should_process_child "Text" = false ∧ should_process_child "Presentation" = false)
  ∧ (∀ (fuel : ℕ) (attrs : List (String × AttrVal)) (cs : List XmlNode)
        (parent : Option XmlNode) (ctx : Context),
      process_node (fuel + 1) (XmlNode.mk "Presentation" attrs cs none) parent ctx =
        Except.ok [])
  ∧ (∀ (fuel : ℕ) (attrs : List (String × AttrVal)) (cs : List XmlNode)
        (parent : Option XmlNode) (xm xM ymn ym u : ℚ) (origin : Option String)
        (cat : Option XmlNode),
      process_node (fuel + 1) (XmlNode.mk "PipingNetworkSegment" attrs cs none) parent
          { x_min := xm, x_max := xM, y_min := ymn, y_max := ym, origin := origin,
            debug := false, units := u, shape_catalog := cat } =
        (process_children fuel cs (XmlNode.mk "PipingNetworkSegment" attrs cs none)
            { x_min := xm, x_max := xM, y_min := ymn, y_max := ym, origin := origin,
              debug := false, units := u, shape_catalog := cat }).bind fun kids =>
          Except.ok [(create_group
            (XmlNode.mk "PipingNetworkSegment" attrs cs none)).addAll kids])
  ∧ (∀ (fuel : ℕ) (attrs : List (String × AttrVal)) (cs : List XmlNode)
        (parent : Option XmlNode) (ctx : Context),
      process_node (fuel + 1) (XmlNode.mk "PlantModel" attrs cs none) parent ctx =
        process_children fuel cs (XmlNode.mk "PlantModel" attrs cs none) ctx)
  ∧ process_node 2 (XmlNode.mk "Presentation" [] [XmlNode.mk "Bogus" [] [] none] none)
      none ctx0 = Except.ok []
  ∧ process_node 2 (XmlNode.mk "PipingNetworkSegment" []
      [XmlNode.mk "Bogus" [] [] none] none) none ctx0 =
      Except.error Err.notImplementedError := by
  refine ⟨by decide, ?_, ?_, ?_, ?_, ?_⟩
  · intro fuel attrs cs parent ctx
    simp [process_node, run_handler, dummy_handler, DUMMY_TAGS, should_process_child,
      COMPLEX_NODES, XmlNode.tag, Except.bind, bind]
  · intro fuel attrs cs parent xm xM ymn ym u origin cat
    simp only [process_node, run_handler, piping_network_segment_handler,
      dummy_handler, DUMMY_TAGS, should_process_child, COMPLEX_NODES, ensure_type,
      process_children, XmlNode.tag, XmlNode.children, Except.bind, bind]
    try norm_num
    try simp
    try rfl
  · intro fuel attrs cs parent ctx
    simp only [process_node, run_handler, dummy_handler, DUMMY_TAGS,
      should_process_child, COMPLEX_NODES, process_children, XmlNode.tag,
      XmlNode.children, Except.bind, bind]
    try norm_num
    try simp
    rcases h : concatMapExcept (fun c => process_node fuel c
        (some (XmlNode.mk "PlantModel" attrs cs none)) ctx) cs with e | kids <;>
      simp [h]
  · rw [show (2 : ℕ) = 0 + 1 + 1 from rfl]
    simp [process_node, run_handler, dummy_handler, DUMMY_TAGS, should_process_child,
      COMPLEX_NODES, concatMapExcept, XmlNode.tag, XmlNode.children, ctx0,
      Except.bind, bind]
  · rw [show (2 : ℕ) = 0 + 1 + 1 from rfl]
    simp [process_node, run_handler, piping_network_segment_handler, create_group,
      classNameOf, dummy_handler, DUMMY_TAGS, should_process_child, COMPLEX_NODES,
      concatMapExcept, ensure_type, XmlNode.tag, XmlNode.children, XmlNode.getAttr,
      XmlNode.attrib, List.find?, Option.map, ctx0, Except.bind, bind]
